import Mathlib

/-
  Verification of the per-frame simulation engine of the doodle-jump clone
  (src/game/game.go).  Floating point values are modelled as rationals,
  machine ints as naturals / integers, and the two global random streams
  (rand.Float64 and rand.Intn) as explicit functions from a draw counter.
  Every definition mirrors the corresponding block of Game.Update or
  NewGame in the source.
-/

namespace DoodleJump

/-! ### Constants (game.go lines 24-82) -/

def ScreenWidth : ℕ := 320
def ScreenHeight : ℕ := 480
def PlatformWidth : ℕ := 60
def PlatformHeight : ℕ := 10
def PlayerWidth : ℕ := 40
def PlayerHeight : ℕ := 40
def BirdWidth : ℕ := 40
def BirdHeight : ℕ := 30
def CloudWidth : ℕ := 80
def CloudHeight : ℕ := 40
def Gravity : ℚ := 15/100
def JumpVelocity : ℚ := -7
def PlatformCount : ℕ := 10
def InitialBirdCount : ℕ := 1
def MaxBirdCount : ℕ := 8
def MaxBirdsPerLine : ℕ := 2
def CloudCount : ℕ := 5
def SnowflakeCount : ℕ := 40
def RaindropCount : ℕ := 50
def InitialBirdSpeedMin : ℚ := 7/10
def InitialBirdSpeedMax : ℚ := 15/10
def MaxBirdSpeedMin : ℚ := 25/10
def MaxBirdSpeedMax : ℚ := 4
def CloudSpeedMin : ℚ := 2/10
def CloudSpeedMax : ℚ := 1
def BoostSpawnChance : ℚ := 15/100
def BulletSpeed : ℚ := 5
def FlyDuration : ℚ := 4
def ShootCooldown : ℚ := 4/10
def BoostDuration : ℚ := 12
def ScorePerDifficulty : ℕ := 20

/-! Weather types (iota) -/

def WeatherClear : ℕ := 0
def WeatherRain : ℕ := 1
def WeatherSnow : ℕ := 2

/-! Boost types (iota) -/

def BoostNone : ℕ := 0
def BoostSpeed : ℕ := 1
def BoostJump : ℕ := 2
def BoostShield : ℕ := 3

/-! Platform types (iota) -/

def PlatformNormal : ℕ := 0
def PlatformSticky : ℕ := 1
def PlatformDisappearing : ℕ := 2

/-! Platform animation states (iota) -/

def PlatformIntact : ℕ := 0
def PlatformBreaking : ℕ := 1
def PlatformBroken : ℕ := 2

/-! ### Entity records (game.go lines 113-172) -/

structure Bullet where
  x : ℚ
  y : ℚ
  direction : ℤ
  speed : ℚ
  active : Bool
deriving DecidableEq

structure Platform where
  x : ℚ
  y : ℚ
  ptype : ℕ
  state : ℕ
  breakTimer : ℚ
deriving DecidableEq

structure Bird where
  x : ℚ
  y : ℚ
  speedX : ℚ
  direction : ℤ
deriving DecidableEq

structure Cloud where
  x : ℚ
  y : ℚ
  speedX : ℚ
  width : ℚ
  height : ℚ
  alpha : ℚ
deriving DecidableEq

structure Particle where
  x : ℚ
  y : ℚ
  speedX : ℚ
  speedY : ℚ
  size : ℚ
  alpha : ℚ
deriving DecidableEq

structure Player where
  x : ℚ
  y : ℚ
  velocityY : ℚ
  facingRight : Bool
  canFly : Bool
  flyTimer : ℚ
  shootTimer : ℚ
  boostType : ℕ
  boostTimer : ℚ
deriving DecidableEq

structure Boost where
  x : ℚ
  y : ℚ
  btype : ℕ
  active : Bool
deriving DecidableEq

/-- The mutable session state of Game that Update reads and writes
(image handles, the draw-only star field and night flag are omitted).
The Go field stuckToPlatform is a pointer into the platforms slice;
it is modelled as an index into the list. -/
structure Game where
  player : Player
  platforms : List Platform
  birds : List Bird
  clouds : List Cloud
  particles : List Particle
  boosts : List Boost
  bullets : List Bullet
  camera : ℚ
  score : ℕ
  difficulty : ℕ
  birdCount : ℕ
  birdSpeedMin : ℚ
  birdSpeedMax : ℚ
  gameOver : Bool
  weather : ℕ
  weatherTimer : ℚ
  gameTime : ℚ
  initialTimeOfDay : ℚ
  stuckToPlatform : Option ℕ
  stuckTimer : ℚ
  jumpPressed : Bool
  canJumpRelease : Bool
deriving DecidableEq

/-- One per-tick input snapshot (keyboard polling is the external collaborator). -/
structure Input where
  leftHeld : Bool
  rightHeld : Bool
  upHeld : Bool
  wHeld : Bool
  spaceHeld : Bool
  wJust : Bool
  fJust : Bool
  spaceJust : Bool
deriving DecidableEq

/-! ### Random source: the two global streams of math/rand -/

structure Rng where
  floats : ℕ → ℚ
  ints : ℕ → ℕ

structure RngCount where
  fi : ℕ
  ii : ℕ
deriving DecidableEq

def RngCount.nextF (c : RngCount) : RngCount := ⟨c.fi + 1, c.ii⟩

def RngCount.nextI (c : RngCount) : RngCount := ⟨c.fi, c.ii + 1⟩

/-- rand.Intn n: the draw is reduced mod n so that it always lies in [0,n). -/
def Rng.intn (r : Rng) (c : RngCount) (n : ℕ) : ℕ := r.ints c.ii % n

def defaultPlatform : Platform := ⟨0, 0, 0, 0, 0⟩

def defaultBird : Bird := ⟨0, 0, 0, 1⟩

/-- Removal by swap-with-last-and-truncate, as used for particles, boosts
and bullets in Update. -/
def swapRemoveAt {α : Type} (l : List α) (i : ℕ) : List α :=
  match l.getLast? with
  | none => []
  | some a => (l.set i a).dropLast

/-! ### Shared random helpers from NewGame / the recycle pass -/

/-- Platform type distribution (game.go lines 538-544 and 965-971):
20% sticky, then 15% disappearing, 65% normal. -/
def platformTypeFromRoll (rnd : ℚ) : ℕ :=
  if rnd < 2/10 then PlatformSticky
  else if rnd < 35/100 then PlatformDisappearing
  else PlatformNormal

/-! ### NewGame (game.go lines 479-596) -/

def initPlatform0 (playerX : ℚ) : Platform :=
  { x := playerX - ((PlatformWidth / 2 : ℕ) : ℚ), y := (ScreenHeight : ℚ) - 30,
    ptype := PlatformNormal, state := PlatformIntact, breakTimer := 0 }

def initPlatformsGo (r : Rng) : ℕ → ℕ → RngCount → List Platform × RngCount
  | _, 0, c => ([], c)
  | i, n+1, c =>
    let rnd := r.floats c.fi
    let c := c.nextF
    let pt := platformTypeFromRoll rnd
    let fx := r.floats c.fi
    let c := c.nextF
    let p : Platform :=
      { x := fx * ((ScreenWidth - PlatformWidth : ℕ) : ℚ),
        y := (i : ℚ) * ((ScreenHeight / PlatformCount : ℕ) : ℚ),
        ptype := pt, state := PlatformIntact, breakTimer := 0 }
    let pr := initPlatformsGo r (i+1) n c
    (p :: pr.1, pr.2)

def initBirdsGo (r : Rng) (smin smax : ℚ) : ℕ → RngCount → List Bird × RngCount
  | 0, c => ([], c)
  | n+1, c =>
    let fd := r.floats c.fi
    let c := c.nextF
    let direction : ℤ := if fd < 1/2 then -1 else 1
    let fx := r.floats c.fi
    let c := c.nextF
    let fy := r.floats c.fi
    let c := c.nextF
    let fs := r.floats c.fi
    let c := c.nextF
    let b : Bird :=
      { x := fx * (ScreenWidth : ℚ), y := fy * (ScreenHeight : ℚ) / 2,
        speedX := smin + fs * (smax - smin), direction := direction }
    let pr := initBirdsGo r smin smax n c
    (b :: pr.1, pr.2)

def initCloudsGo (r : Rng) : ℕ → RngCount → List Cloud × RngCount
  | 0, c => ([], c)
  | n+1, c =>
    let fx := r.floats c.fi
    let c := c.nextF
    let fy := r.floats c.fi
    let c := c.nextF
    let fs := r.floats c.fi
    let c := c.nextF
    let fw := r.floats c.fi
    let c := c.nextF
    let fh := r.floats c.fi
    let c := c.nextF
    let fa := r.floats c.fi
    let c := c.nextF
    let cl : Cloud :=
      { x := fx * (ScreenWidth : ℚ), y := fy * (ScreenHeight : ℚ) * (7/10),
        speedX := CloudSpeedMin + fs * (CloudSpeedMax - CloudSpeedMin),
        width := (CloudWidth : ℚ) * (7/10 + fw * (6/10)),
        height := (CloudHeight : ℚ) * (7/10 + fh * (6/10)),
        alpha := 5/10 + fa * (5/10) }
    let pr := initCloudsGo r n c
    (cl :: pr.1, pr.2)

def newGame (r : Rng) (c : RngCount) : Game × RngCount :=
  let wt := r.floats c.fi
  let c := c.nextF
  let itod := r.floats c.fi
  let c := c.nextF
  let playerX : ℚ := ((ScreenWidth / 2 : ℕ) : ℚ)
  let pr := initPlatformsGo r 1 (PlatformCount - 1) c
  let platforms := initPlatform0 playerX :: pr.1
  let c := pr.2
  let br := initBirdsGo r InitialBirdSpeedMin InitialBirdSpeedMax InitialBirdCount c
  let birds := br.1
  let c := br.2
  let cr := initCloudsGo r CloudCount c
  let clouds := cr.1
  let c := cr.2
  -- the 100 draw-only stars consume 3 float draws each
  let c : RngCount := ⟨c.fi + 300, c.ii⟩
  let pl : Player :=
    { x := playerX, y := (ScreenHeight : ℚ) - 100, velocityY := 0,
      facingRight := true, canFly := false, flyTimer := 0, shootTimer := 0,
      boostType := BoostNone, boostTimer := 0 }
  let g : Game :=
    { player := pl,
      platforms := platforms, birds := birds, clouds := clouds, particles := [],
      boosts := [], bullets := [], camera := 0, score := 0, difficulty := 0,
      birdCount := InitialBirdCount, birdSpeedMin := InitialBirdSpeedMin,
      birdSpeedMax := InitialBirdSpeedMax, gameOver := false,
      weather := WeatherClear, weatherTimer := wt * 15, gameTime := 0,
      initialTimeOfDay := itod, stuckToPlatform := none, stuckTimer := 0,
      jumpPressed := false, canJumpRelease := false }
  (g, c)

/-! ### Update phases, in source order -/

/-- game.go lines 640-643: manual weather cycling with the W key. -/
def weatherTogglePhase (inp : Input) (g : Game) : Game :=
  if inp.wJust then { g with weather := (g.weather + 1) % 3, particles := [] } else g

/-- game.go lines 646-652: weather countdown and random change. -/
def weatherTimerPhase (r : Rng) (g : Game) (c : RngCount) : Game × RngCount :=
  let g := { g with weatherTimer := g.weatherTimer - 16/1000 }
  if g.weatherTimer ≤ 0 then
    let w := r.intn c 3
    let c := c.nextI
    let f := r.floats c.fi
    let c := c.nextF
    ({ g with weather := w, weatherTimer := 15 + f * 20, particles := [] }, c)
  else (g, c)

/-- game.go lines 599-625: generateParticle. -/
def generateParticle (weather : ℕ) (r : Rng) (c : RngCount) : Particle × RngCount :=
  if weather = WeatherRain then
    let fx := r.floats c.fi
    let c := c.nextF
    let fsx := r.floats c.fi
    let c := c.nextF
    let fsy := r.floats c.fi
    let c := c.nextF
    let fsz := r.floats c.fi
    let c := c.nextF
    let fa := r.floats c.fi
    let c := c.nextF
    ({ x := fx * (ScreenWidth : ℚ), y := -5, speedX := 1 + fsx * 2,
       speedY := 8 + fsy * 4, size := 2 + fsz * 3, alpha := 6/10 + fa * (4/10) }, c)
  else if weather = WeatherSnow then
    let fx := r.floats c.fi
    let c := c.nextF
    let fsx := r.floats c.fi
    let c := c.nextF
    let fsy := r.floats c.fi
    let c := c.nextF
    let fsz := r.floats c.fi
    let c := c.nextF
    let fa := r.floats c.fi
    let c := c.nextF
    ({ x := fx * (ScreenWidth : ℚ), y := -5, speedX := -1 + fsx * 2,
       speedY := 1 + fsy * 2, size := 2 + fsz * 4, alpha := 7/10 + fa * (3/10) }, c)
  else (⟨0, 0, 0, 0, 0, 0⟩, c)

/-- game.go lines 655-665: at most one particle spawned per tick
(the float is drawn only when the count is below the cap,
matching Go short-circuit evaluation). -/
def particleSpawnPhase (r : Rng) (g : Game) (c : RngCount) : Game × RngCount :=
  if g.weather = WeatherRain then
    if g.particles.length < RaindropCount then
      let f := r.floats c.fi
      let c := c.nextF
      if f < 3/10 then
        let pc := generateParticle g.weather r c
        ({ g with particles := g.particles ++ [pc.1] }, pc.2)
      else (g, c)
    else (g, c)
  else if g.weather = WeatherSnow then
    if g.particles.length < SnowflakeCount then
      let f := r.floats c.fi
      let c := c.nextF
      if f < 2/10 then
        let pc := generateParticle g.weather r c
        ({ g with particles := g.particles ++ [pc.1] }, pc.2)
      else (g, c)
    else (g, c)
  else (g, c)

/-- game.go lines 668-678: move particles, swap-removing those past the bottom. -/
def particleMoveLoop : ℕ → List Particle → ℕ → List Particle
  | 0, ps, _ => ps
  | fuel+1, ps, i =>
    if h : i < ps.length then
      let p := ps.get ⟨i, h⟩
      let p := { p with x := p.x + p.speedX, y := p.y + p.speedY }
      let ps := ps.set i p
      if p.y > (ScreenHeight : ℚ) then particleMoveLoop fuel (swapRemoveAt ps i) i
      else particleMoveLoop fuel ps (i+1)
    else ps

def particleMovePhase (g : Game) : Game :=
  { g with particles := particleMoveLoop g.particles.length g.particles 0 }

/-- game.go lines 681-698: sticky platform release on a fresh jump key press. -/
def stickyReleasePhase (inp : Input) (g : Game) : Game :=
  let jumpKey := inp.upHeld || inp.wHeld
  let spaceKey := inp.spaceHeld
  if jumpKey || spaceKey then
    if !g.jumpPressed then
      match g.stuckToPlatform with
      | some _ =>
        { g with
          player := { g.player with velocityY := JumpVelocity * (12/10) },
          stuckToPlatform := none, stuckTimer := 0, jumpPressed := true }
      | none => { g with jumpPressed := true }
    else { g with jumpPressed := true }
  else { g with jumpPressed := false }

/-- game.go lines 713-717: the platform collision test.  PlayerWidth/3 and
PlayerHeight/2 are Go untyped-integer constant divisions (13 and 20). -/
def platformCollides (pl : Player) (p : Platform) : Prop :=
  pl.x + ((PlayerWidth / 3 : ℕ) : ℚ) ≥ p.x ∧
  pl.x - ((PlayerWidth / 3 : ℕ) : ℚ) ≤ p.x + (PlatformWidth : ℚ) ∧
  pl.y + ((PlayerHeight / 2 : ℕ) : ℚ) ≥ p.y ∧
  pl.y + ((PlayerHeight / 2 : ℕ) : ℚ) ≤ p.y + (PlatformHeight : ℚ) ∧
  pl.velocityY > 0

instance instDecPlatformCollides (pl : Player) (p : Platform) :
    Decidable (platformCollides pl p) := by
  unfold platformCollides
  infer_instance

/-- game.go lines 736-741 and 743-748: jump impulse, amplified under Jump boost. -/
def jumpForceOf (boostType : ℕ) : ℚ :=
  if boostType = BoostJump then JumpVelocity * (15/10) else JumpVelocity

/-- The player-side state mutated by the platform loop. -/
structure PlatLoopState where
  player : Player
  stuck : Option ℕ
  stuckTimer : ℚ
  canJumpRelease : Bool
deriving DecidableEq

/-- game.go lines 701-751, body for the platform at index i: first the
breaking-timer update, then the collision resolution. -/
def platformStep (i : ℕ) (st : PlatLoopState) (p : Platform) : Platform × PlatLoopState :=
  let p :=
    if p.ptype = PlatformDisappearing ∧ p.state = PlatformBreaking then
      let bt := p.breakTimer - 1/60
      if bt ≤ 0 then { p with breakTimer := bt, state := PlatformBroken }
      else { p with breakTimer := bt }
    else p
  if platformCollides st.player p then
    if p.ptype = PlatformDisappearing ∧ p.state = PlatformBroken then (p, st)
    else if p.ptype = PlatformSticky then
      (p, { st with
            stuck := some i, stuckTimer := 0, canJumpRelease := false,
            player := { st.player with
                        velocityY := 0, y := p.y - ((PlayerHeight / 2 : ℕ) : ℚ) } })
    else if p.ptype = PlatformDisappearing ∧ p.state = PlatformIntact then
      ({ p with state := PlatformBreaking, breakTimer := 3/10 },
       { st with player := { st.player with velocityY := jumpForceOf st.player.boostType } })
    else
      (p, { st with player := { st.player with velocityY := jumpForceOf st.player.boostType } })
  else (p, st)

def platformLoopGo : ℕ → PlatLoopState → List Platform → List Platform × PlatLoopState
  | _, st, [] => ([], st)
  | i, st, p :: rest =>
    let pr := platformStep i st p
    let rr := platformLoopGo (i+1) pr.2 rest
    (pr.1 :: rr.1, rr.2)

def platformPhase (g : Game) : Game :=
  let st : PlatLoopState := ⟨g.player, g.stuckToPlatform, g.stuckTimer, g.canJumpRelease⟩
  let pr := platformLoopGo 0 st g.platforms
  { g with
    platforms := pr.1, player := pr.2.player, stuckToPlatform := pr.2.stuck,
    stuckTimer := pr.2.stuckTimer, canJumpRelease := pr.2.canJumpRelease }

/-- game.go lines 754-759: keep the player pinned to the stuck platform. -/
def stuckPinPhase (g : Game) : Game :=
  match g.stuckToPlatform with
  | some i =>
    let p := g.platforms.getD i defaultPlatform
    { g with
      stuckTimer := g.stuckTimer + 1/60,
      player := { g.player with y := p.y - ((PlayerHeight / 2 : ℕ) : ℚ), velocityY := 0 } }
  | none => g

/-- game.go lines 762-768: boost countdown. -/
def boostTimerPhase (g : Game) : Game :=
  if g.player.boostType ≠ BoostNone then
    let t := g.player.boostTimer - 1/60
    if t ≤ 0 then { g with player := { g.player with boostType := BoostNone, boostTimer := 0 } }
    else { g with player := { g.player with boostTimer := t } }
  else g

/-- game.go lines 771-776: fly countdown. -/
def flyTimerPhase (g : Game) : Game :=
  if g.player.canFly then
    let t := g.player.flyTimer - 1/60
    if t ≤ 0 then { g with player := { g.player with flyTimer := t, canFly := false } }
    else { g with player := { g.player with flyTimer := t } }
  else g

/-- game.go lines 779-781: shoot cooldown. -/
def shootTimerPhase (g : Game) : Game :=
  if g.player.shootTimer > 0 then
    { g with player := { g.player with shootTimer := g.player.shootTimer - 1/60 } }
  else g

/-- game.go lines 786-790: player/boost overlap test. -/
def boostOverlap (pl : Player) (b : Boost) : Prop :=
  pl.x + ((PlayerWidth / 3 : ℕ) : ℚ) ≥ b.x ∧
  pl.x - ((PlayerWidth / 3 : ℕ) : ℚ) ≤ b.x + ((PlatformWidth / 2 : ℕ) : ℚ) ∧
  pl.y + ((PlayerHeight / 2 : ℕ) : ℚ) ≥ b.y ∧
  pl.y - ((PlayerHeight / 2 : ℕ) : ℚ) ≤ b.y + ((PlatformHeight * 2 : ℕ) : ℚ)

instance instDecBoostOverlap (pl : Player) (b : Boost) :
    Decidable (boostOverlap pl b) := by
  unfold boostOverlap
  infer_instance

/-- game.go lines 792-803: apply a collected boost to the player. -/
def applyBoost (pl : Player) (b : Boost) : Player :=
  let pl := { pl with boostType := b.btype, boostTimer := BoostDuration }
  if b.btype = BoostJump then { pl with canFly := true, flyTimer := FlyDuration } else pl

/-- game.go lines 784-812: boost pickup / removal loop (swap-with-last). -/
def boostLoopGo : ℕ → Player → List Boost → ℕ → Player × List Boost
  | 0, pl, bs, _ => (pl, bs)
  | fuel+1, pl, bs, i =>
    if h : i < bs.length then
      let b := bs.get ⟨i, h⟩
      let hit := b.active ∧ boostOverlap pl b
      let pl := if hit then applyBoost pl b else pl
      let b := if hit then { b with active := false } else b
      let bs := bs.set i b
      if !b.active then boostLoopGo fuel pl (swapRemoveAt bs i) i
      else boostLoopGo fuel pl bs (i+1)
    else (pl, bs)

def boostPhase (g : Game) : Game :=
  let pr := boostLoopGo g.boosts.length g.player g.boosts 0
  { g with player := pr.1, boosts := pr.2 }

/-- game.go lines 815-833: horizontal input with edge wrap. -/
def inputMovePhase (inp : Input) (g : Game) : Game :=
  let speed : ℚ := if g.player.boostType = BoostSpeed then 5 else 3
  let g :=
    if inp.leftHeld then
      let x := g.player.x - speed
      let x := if x < 0 then (ScreenWidth : ℚ) else x
      { g with player := { g.player with x := x, facingRight := false } }
    else g
  if inp.rightHeld then
    let x := g.player.x + speed
    let x := if x > (ScreenWidth : ℚ) then 0 else x
    { g with player := { g.player with x := x, facingRight := true } }
  else g

/-- game.go lines 836-838: flying overrides vertical velocity. -/
def flightPhase (inp : Input) (g : Game) : Game :=
  if (inp.upHeld || inp.wHeld) && g.player.canFly then
    { g with player := { g.player with velocityY := -4 } }
  else g

/-- game.go lines 841-844: toggle flying with F. -/
def flyTogglePhase (inp : Input) (g : Game) : Game :=
  if inp.fJust ∧ g.player.flyTimer ≤ 0 then
    { g with player := { g.player with canFly := true, flyTimer := FlyDuration } }
  else g

/-- game.go lines 847-864: shooting with Space. -/
def shootPhase (inp : Input) (g : Game) : Game :=
  if inp.spaceJust ∧ g.player.shootTimer ≤ 0 then
    let direction : ℤ := if !g.player.facingRight then -1 else 1
    let bullet : Bullet :=
      { x := g.player.x + ((direction * (PlayerWidth : ℤ) / 2 : ℤ) : ℚ),
        y := g.player.y, direction := direction, speed := BulletSpeed, active := true }
    { g with
      bullets := g.bullets ++ [bullet],
      player := { g.player with shootTimer := ShootCooldown } }
  else g

/-- game.go lines 866-868: gravity integration, applied unconditionally. -/
def gravityPhase (g : Game) : Game :=
  let v := g.player.velocityY + Gravity
  { g with player := { g.player with velocityY := v, y := g.player.y + v } }

/-- game.go lines 885-888: bullet/bird overlap. -/
def bulletHitsBird (bl : Bullet) (b : Bird) : Prop :=
  bl.x ≥ b.x ∧ bl.x ≤ b.x + (BirdWidth : ℚ) ∧ bl.y ≥ b.y ∧ bl.y ≤ b.y + (BirdHeight : ℚ)

instance instDecBulletHitsBird (bl : Bullet) (b : Bird) :
    Decidable (bulletHitsBird bl b) := by
  unfold bulletHitsBird
  infer_instance

def findHitBird (bl : Bullet) : ℕ → List Bird → Option ℕ
  | _, [] => none
  | j, b :: rest => if bulletHitsBird bl b then some j else findHitBird bl (j+1) rest

/-- game.go lines 871-900: bullet movement, off-screen removal and bird hits. -/
def bulletLoopGo : ℕ → List Bird → List Bullet → ℕ → List Bird × List Bullet
  | 0, birds, bs, _ => (birds, bs)
  | fuel+1, birds, bs, i =>
    if h : i < bs.length then
      let bl := bs.get ⟨i, h⟩
      let bl := { bl with x := bl.x + bl.speed * (bl.direction : ℚ) }
      let bs := bs.set i bl
      if bl.x < 0 ∨ bl.x > (ScreenWidth : ℚ) then
        bulletLoopGo fuel birds (swapRemoveAt bs i) i
      else
        match findHitBird bl 0 birds with
        | some j =>
          let b := birds.getD j defaultBird
          bulletLoopGo fuel (birds.set j { b with y := -(BirdHeight : ℚ) * 2 })
            (swapRemoveAt bs i) i
        | none => bulletLoopGo fuel birds bs (i+1)
    else (birds, bs)

def bulletPhase (g : Game) : Game :=
  let pr := bulletLoopGo g.bullets.length g.birds g.bullets 0
  { g with birds := pr.1, bullets := pr.2 }

/-- game.go lines 903-910: horizontal cloud drift with wrap at the right edge. -/
def cloudMovePhase (g : Game) : Game :=
  { g with clouds := g.clouds.map (fun cl =>
      let cl := { cl with x := cl.x + cl.speedX }
      if cl.x > (ScreenWidth : ℚ) then { cl with x := -cl.width } else cl) }

/-- game.go lines 925-928: bird/player overlap. -/
def birdOverlapsPlayer (pl : Player) (b : Bird) : Prop :=
  pl.x + ((PlayerWidth / 4 : ℕ) : ℚ) ≥ b.x ∧
  pl.x - ((PlayerWidth / 4 : ℕ) : ℚ) ≤ b.x + (BirdWidth : ℚ) ∧
  pl.y + ((PlayerHeight / 4 : ℕ) : ℚ) ≥ b.y ∧
  pl.y - ((PlayerHeight / 4 : ℕ) : ℚ) ≤ b.y + (BirdHeight : ℚ)

instance instDecBirdOverlapsPlayer (pl : Player) (b : Bird) :
    Decidable (birdOverlapsPlayer pl b) := by
  unfold birdOverlapsPlayer
  infer_instance

/-- game.go lines 913-938, body for one bird: movement, wrap, player collision
(shield defeats the bird, otherwise game over). -/
def birdStep (pl : Player) (go : Bool) (b : Bird) : Bird × Bool :=
  let b := { b with x := b.x + b.speedX * (b.direction : ℚ) }
  let b :=
    if b.x < -(BirdWidth : ℚ) ∧ b.direction < 0 then { b with x := (ScreenWidth : ℚ) }
    else if b.x > (ScreenWidth : ℚ) ∧ b.direction > 0 then { b with x := -(BirdWidth : ℚ) }
    else b
  if birdOverlapsPlayer pl b then
    if pl.boostType ≠ BoostShield then (b, true)
    else ({ b with y := -(BirdHeight : ℚ) * 2 }, go)
  else (b, go)

def birdLoopGo (pl : Player) : Bool → List Bird → List Bird × Bool
  | go, [] => ([], go)
  | go, b :: rest =>
    let pr := birdStep pl go b
    let rr := birdLoopGo pl pr.2 rest
    (pr.1 :: rr.1, rr.2)

def birdMovePhase (g : Game) : Game :=
  let pr := birdLoopGo g.player g.gameOver g.birds
  { g with birds := pr.1, gameOver := pr.2 }

/-! ### Camera scroll and recycling (game.go lines 943-1094) -/

def highPoint : ℚ := (ScreenHeight : ℚ) * (4/10)

/-- The session counters and pools mutated by the platform recycle pass. -/
structure ScrollState where
  score : ℕ
  difficulty : ℕ
  birdCount : ℕ
  birdSpeedMin : ℚ
  birdSpeedMax : ℚ
  birds : List Bird
  boosts : List Boost
deriving DecidableEq

/-- game.go lines 1007-1014: difficulty-scaled speed range,
progress = min(difficulty/10, 1). -/
def progressFactor (d : ℕ) : ℚ :=
  let p : ℚ := (d : ℚ) / 10
  if p > 1 then 1 else p

def birdSpeedMinFor (d : ℕ) : ℚ :=
  InitialBirdSpeedMin + progressFactor d * (MaxBirdSpeedMin - InitialBirdSpeedMin)

def birdSpeedMaxFor (d : ℕ) : ℚ :=
  InitialBirdSpeedMax + progressFactor d * (MaxBirdSpeedMax - InitialBirdSpeedMax)

/-- game.go lines 988-1001: one new bird appended at index j, staggered
vertically by j mod MaxBirdsPerLine. -/
def newBirdAt (r : Rng) (c : RngCount) (j : ℕ) (smin smax : ℚ) : Bird × RngCount :=
  let fd := r.floats c.fi
  let c := c.nextF
  let direction : ℤ := if fd < 1/2 then -1 else 1
  let fx := r.floats c.fi
  let c := c.nextF
  let fs := r.floats c.fi
  let c := c.nextF
  let b : Bird :=
    { x := fx * (ScreenWidth : ℚ),
      y := -(BirdHeight : ℚ) * (1 + ((j % MaxBirdsPerLine : ℕ) : ℚ)),
      speedX := smin + fs * (smax - smin), direction := direction }
  (b, c)

def appendBirdsGo (r : Rng) (smin smax : ℚ) : ℕ → ℕ → List Bird → RngCount → List Bird × RngCount
  | _, 0, birds, c => (birds, c)
  | j, n+1, birds, c =>
    let br := newBirdAt r c j smin smax
    appendBirdsGo r smin smax (j+1) n (birds ++ [br.1]) br.2

/-- game.go lines 974-1015: difficulty recomputation after a score increment,
bird-count growth (append only) and speed-range update. -/
def difficultyStep (r : Rng) (s : ScrollState) (c : RngCount) : ScrollState × RngCount :=
  let newDifficulty := s.score / ScorePerDifficulty
  if newDifficulty > s.difficulty then
    let s := { s with difficulty := newDifficulty }
    let newBirdCount := min (InitialBirdCount + s.difficulty) MaxBirdCount
    let pr :=
      if newBirdCount > s.birdCount then
        let br := appendBirdsGo r s.birdSpeedMin s.birdSpeedMax s.birdCount
          (newBirdCount - s.birdCount) s.birds c
        ({ s with birds := br.1, birdCount := newBirdCount }, br.2)
      else (s, c)
    let s := pr.1
    ({ s with
       birdSpeedMin := birdSpeedMinFor s.difficulty,
       birdSpeedMax := birdSpeedMaxFor s.difficulty }, pr.2)
  else (s, c)

/-- game.go lines 954-1029: recycling of one platform whose Y passed the
viewport bottom: reposition to Y=0, re-randomize X and type, reset a
disappearing platform to Intact, score+1, difficulty update, and the
chance of one boost spawned above the platform. -/
def recyclePlatform (r : Rng) (p : Platform) (s : ScrollState) (c : RngCount) :
    Platform × ScrollState × RngCount :=
  let p := { p with y := 0 }
  let fx := r.floats c.fi
  let c := c.nextF
  let p := { p with x := fx * ((ScreenWidth - PlatformWidth : ℕ) : ℚ) }
  let s := { s with score := s.score + 1 }
  let p := if p.ptype = PlatformDisappearing then { p with state := PlatformIntact } else p
  let rnd := r.floats c.fi
  let c := c.nextF
  let p := { p with ptype := platformTypeFromRoll rnd }
  let dr := difficultyStep r s c
  let s := dr.1
  let c := dr.2
  let fb := r.floats c.fi
  let c := c.nextF
  if fb < BoostSpawnChance then
    let bt := r.intn c 3
    let c := c.nextI
    let boost : Boost :=
      { x := p.x + ((PlatformWidth / 4 : ℕ) : ℚ),
        y := p.y - ((PlatformHeight * 2 : ℕ) : ℚ), btype := bt + 1, active := true }
    (p, { s with boosts := s.boosts ++ [boost] }, c)
  else (p, s, c)

def platformScrollGo (r : Rng) (diff : ℚ) :
    List Platform → ScrollState → RngCount → List Platform × ScrollState × RngCount
  | [], s, c => ([], s, c)
  | p :: rest, s, c =>
    let p := { p with y := p.y + diff }
    let pr := if p.y > (ScreenHeight : ℚ) then recyclePlatform r p s c else (p, s, c)
    let rr := platformScrollGo r diff rest pr.2.1 pr.2.2
    (pr.1 :: rr.1, rr.2)

/-- game.go lines 1049-1056: count of other birds within one BirdHeight of newY. -/
def birdsAtHeight (birds : List Bird) (i : ℕ) (newY : ℚ) : ℕ :=
  (birds.enum.filter fun jb =>
    decide (jb.1 ≠ i ∧ |jb.2.y - newY| < (BirdHeight : ℚ))).length

/-- game.go lines 1045-1064: up to 10 random placement attempts. -/
def birdPlaceAttempts (r : Rng) (birds : List Bird) (i : ℕ) :
    ℕ → RngCount → Option ℚ × RngCount
  | 0, c => (none, c)
  | n+1, c =>
    let k := r.intn c 3
    let c := c.nextI
    let newY : ℚ := -(BirdHeight : ℚ) - (k : ℚ) * (BirdHeight : ℚ)
    if birdsAtHeight birds i newY < MaxBirdsPerLine then (some newY, c)
    else birdPlaceAttempts r birds i n c

/-- game.go lines 1038-1079: recycle one bird that fell off the bottom. -/
def recycleBird (r : Rng) (birds : List Bird) (i : ℕ) (smin smax : ℚ) (c : RngCount) :
    Bird × RngCount :=
  let b := birds.getD i defaultBird
  let pr := birdPlaceAttempts r birds i 10 c
  let bc : Bird × RngCount :=
    match pr.1 with
    | some newY => ({ b with y := newY }, pr.2)
    | none =>
      let f := r.floats pr.2.fi
      ({ b with y := -(BirdHeight : ℚ) * (5 + f * 5) }, pr.2.nextF)
  let b := bc.1
  let c := bc.2
  let fx := r.floats c.fi
  let c := c.nextF
  let b := { b with x := fx * (ScreenWidth : ℚ) }
  let fd := r.floats c.fi
  let c := c.nextF
  let b := { b with direction := if fd < 1/2 then -1 else 1 }
  let fs := r.floats c.fi
  let c := c.nextF
  ({ b with speedX := smin + fs * (smax - smin) }, c)

def birdScrollGo (r : Rng) (diff smin smax : ℚ) :
    ℕ → ℕ → List Bird → RngCount → List Bird × RngCount
  | 0, _, birds, c => (birds, c)
  | n+1, i, birds, c =>
    let b := birds.getD i defaultBird
    let b := { b with y := b.y + diff }
    let birds := birds.set i b
    let pr :=
      if b.y > (ScreenHeight : ℚ) then
        let br := recycleBird r birds i smin smax c
        (birds.set i br.1, br.2)
      else (birds, c)
    birdScrollGo r diff smin smax n (i+1) pr.1 pr.2

/-- game.go lines 1083-1093: clouds scrolled down, recycled above the top. -/
def cloudScrollGo (r : Rng) (diff : ℚ) : List Cloud → RngCount → List Cloud × RngCount
  | [], c => ([], c)
  | cl :: rest, c =>
    let cl := { cl with y := cl.y + diff }
    let pr :=
      if cl.y > (ScreenHeight : ℚ) then
        let fx := r.floats c.fi
        let c := c.nextF
        let fs := r.floats c.fi
        let c := c.nextF
        let fa := r.floats c.fi
        let c := c.nextF
        let cl : Cloud :=
          { cl with
            y := -(CloudHeight : ℚ), x := fx * (ScreenWidth : ℚ),
            speedX := CloudSpeedMin + fs * (CloudSpeedMax - CloudSpeedMin),
            alpha := 5/10 + fa * (5/10) }
        (cl, c)
      else (cl, c)
    let rr := cloudScrollGo r diff rest pr.2
    (pr.1 :: rr.1, rr.2)

/-- game.go lines 943-1094: camera follow.  When the player is above the 40%
line, the difference is added to the camera, the player and every
platform/bird/cloud Y; entities pushed past the bottom are recycled.
Boost positions are never touched here. -/
def cameraScrollPhase (r : Rng) (g : Game) (c : RngCount) : Game × RngCount :=
  if g.player.y < highPoint then
    let diff := highPoint - g.player.y
    let g :=
      { g with
        camera := g.camera + diff,
        player := { g.player with y := g.player.y + diff } }
    let s : ScrollState :=
      ⟨g.score, g.difficulty, g.birdCount, g.birdSpeedMin,
        g.birdSpeedMax, g.birds, g.boosts⟩
    let pr := platformScrollGo r diff g.platforms s c
    let s := pr.2.1
    let c := pr.2.2
    let g :=
      { g with
        platforms := pr.1, score := s.score, difficulty := s.difficulty,
        birdCount := s.birdCount, birdSpeedMin := s.birdSpeedMin,
        birdSpeedMax := s.birdSpeedMax, birds := s.birds, boosts := s.boosts }
    let br := birdScrollGo r diff g.birdSpeedMin g.birdSpeedMax g.birds.length 0 g.birds c
    let c := br.2
    let cr := cloudScrollGo r diff g.clouds c
    ({ g with birds := br.1, clouds := cr.1 }, cr.2)
  else (g, c)

/-- game.go lines 1096-1099: terminal transition when the player falls
below the screen. -/
def fallCheckPhase (g : Game) : Game :=
  if g.player.y > (ScreenHeight : ℚ) then { g with gameOver := true } else g

/-- game.go lines 636-678: game time, weather changes and particles. -/
def weatherSection (inp : Input) (r : Rng) (g : Game) (c : RngCount) : Game × RngCount :=
  let g := { g with gameTime := g.gameTime + 1/60 }
  let g := weatherTogglePhase inp g
  let pr := weatherTimerPhase r g c
  let pr := particleSpawnPhase r pr.1 pr.2
  (particleMovePhase pr.1, pr.2)

/-- game.go lines 762-781: the three countdown timers. -/
def timersSection (g : Game) : Game :=
  shootTimerPhase (flyTimerPhase (boostTimerPhase g))

/-- game.go lines 815-868: input-driven movement, flight, shooting, gravity. -/
def moveSection (inp : Input) (g : Game) : Game :=
  gravityPhase (shootPhase inp (flyTogglePhase inp (flightPhase inp (inputMovePhase inp g))))

/-- game.go lines 871-938: bullets, clouds, birds. -/
def lateSection (g : Game) : Game :=
  birdMovePhase (cloudMovePhase (bulletPhase g))

/-- The pure phases that follow the stuck pin (game.go lines 762-938). -/
def postPinSection (inp : Input) (g : Game) : Game :=
  lateSection (moveSection inp (boostPhase (timersSection g)))

/-- The input-free physics pipeline (game.go lines 681-938). -/
def physicsSection (inp : Input) (g : Game) : Game :=
  postPinSection inp (stuckPinPhase (platformPhase (stickyReleasePhase inp g)))

/-- All Update phases before the camera scroll, in source order
(game.go lines 636-941). -/
def preScrollUpdate (inp : Input) (r : Rng) (g : Game) (c : RngCount) : Game × RngCount :=
  let pr := weatherSection inp r g c
  (physicsSection inp pr.1, pr.2)

/-- One full non-terminal Update tick (game.go lines 636-1101). -/
def updateRun (inp : Input) (r : Rng) (g : Game) (c : RngCount) : Game × RngCount :=
  let pr := preScrollUpdate inp r g c
  let sr := cameraScrollPhase r pr.1 pr.2
  (fallCheckPhase sr.1, sr.2)

/-- game.go lines 628-1101: Update.  In the terminal state only the
restart input (Space) is accepted and rebuilds the session from scratch. -/
def update (inp : Input) (r : Rng) (g : Game) (c : RngCount) : Game × RngCount :=
  if g.gameOver then
    if inp.spaceHeld then newGame r c else (g, c)
  else updateRun inp r g c

/-- States reachable from a fresh session by any sequence of ticks. -/
inductive Reachable : Game → Prop where
  | init : ∀ r c, Reachable (newGame r c).1
  | step : ∀ inp r c g, Reachable g → Reachable (update inp r g c).1

/-! ### Invariants and concrete states used by the theorems -/

/-- The score-driven session counters, bundled for preservation lemmas. -/
def counters (g : Game) : ℕ × ℕ × ℕ × ℕ × ℚ × ℚ :=
  (g.score, g.difficulty, g.birdCount, g.birds.length, g.birdSpeedMin, g.birdSpeedMax)

/-- The difficulty/bird-count/speed invariant maintained by the recycle pass. -/
def ScoreInv (g : Game) : Prop :=
  g.difficulty = g.score / ScorePerDifficulty ∧
  g.birdCount = min (InitialBirdCount + g.difficulty) MaxBirdCount ∧
  g.birds.length = g.birdCount ∧
  g.birdSpeedMin = birdSpeedMinFor g.difficulty ∧
  g.birdSpeedMax = birdSpeedMaxFor g.difficulty

/-- The same invariant on the scroll-pass working state. -/
def SInv (s : ScrollState) : Prop :=
  s.difficulty = s.score / ScorePerDifficulty ∧
  s.birdCount = min (InitialBirdCount + s.difficulty) MaxBirdCount ∧
  s.birds.length = s.birdCount ∧
  s.birdSpeedMin = birdSpeedMinFor s.difficulty ∧
  s.birdSpeedMax = birdSpeedMaxFor s.difficulty

/-- The weather-model state, bundled for preservation lemmas. -/
def weatherState (g : Game) : ℕ × List Particle := (g.weather, g.particles)

/-- The player position and vertical velocity, bundled for preservation lemmas. -/
def posVel (g : Game) : ℚ × ℚ := (g.player.y, g.player.velocityY)

/-- Weather-particle cap invariant: live particle count never exceeds the
cap of the active weather. -/
def WeatherInv (g : Game) : Prop :=
  (g.weather = WeatherRain → g.particles.length ≤ RaindropCount) ∧
  (g.weather = WeatherSnow → g.particles.length ≤ SnowflakeCount)

/-- A random source all of whose float draws are 1 and int draws are 0
(so no probabilistic branch fires). -/
def oneRng : Rng := ⟨fun _ => 1, fun _ => 0⟩

/-- A random source all of whose draws are 0. -/
def zeroRng : Rng := ⟨fun _ => 0, fun _ => 0⟩

/-- The empty input snapshot. -/
def noInput : Input := ⟨false, false, false, false, false, false, false, false⟩

/-- The input snapshot holding only the Space key (restart). -/
def spaceInput : Input := ⟨false, false, false, false, true, false, false, true⟩

/-- The input snapshot with only the weather-cycle key just pressed. -/
def wInput : Input := ⟨false, false, false, false, false, true, false, false⟩

def mkNormalPlat (px py : ℚ) : Platform := ⟨px, py, PlatformNormal, PlatformIntact, 0⟩

/-- A mid-session state in which the player is stuck to the sticky
platform at index 0 (velocity Gravity and position pin+Gravity carried
over from the previous tick's unconditional gravity integration). -/
def stuckGame : Game :=
  { player := ⟨115, 280 + 3/20, 3/20, true, false, 0, 0, BoostNone, 0⟩,
    platforms := ⟨100, 300, PlatformSticky, PlatformIntact, 0⟩ ::
      [mkNormalPlat 10 48, mkNormalPlat 10 96, mkNormalPlat 10 144,
       mkNormalPlat 10 192, mkNormalPlat 10 240, mkNormalPlat 10 288,
       mkNormalPlat 10 336, mkNormalPlat 10 384, mkNormalPlat 10 432],
    birds := [⟨10, 450, 1, 1⟩], clouds := [], particles := [], boosts := [],
    bullets := [], camera := 0, score := 30, difficulty := 1, birdCount := 2,
    birdSpeedMin := birdSpeedMinFor 1, birdSpeedMax := birdSpeedMaxFor 1,
    gameOver := false, weather := WeatherClear, weatherTimer := 10, gameTime := 5,
    initialTimeOfDay := 0, stuckToPlatform := some 0, stuckTimer := 1,
    jumpPressed := false, canJumpRelease := false }

/-- A falling player directly over the x-range [100,160]. -/
def fallingPlayer : Player := ⟨115, 281, 1, true, false, 0, 0, BoostNone, 0⟩

/-- A disappearing platform mid-breaking (timer 0.2s left). -/
def breakingPlat : Platform := ⟨100, 300, PlatformDisappearing, PlatformBreaking, 2/10⟩

/-- An intact disappearing platform under the falling player. -/
def intactDisPlat : Platform := ⟨100, 300, PlatformDisappearing, PlatformIntact, 0⟩

/-- A broken disappearing platform under the falling player. -/
def brokenDisPlat : Platform := ⟨100, 300, PlatformDisappearing, PlatformBroken, 0⟩

/-- A disappearing platform at the instant of first contact (timer 0.3s). -/
def freshBreakingPlat : Platform := ⟨100, 300, PlatformDisappearing, PlatformBreaking, 3/10⟩

/-- A platform-loop state holding the falling player. -/
def fallSt : PlatLoopState := ⟨fallingPlayer, none, 0, false⟩

def stConst : ℕ → PlatLoopState := fun _ => fallSt

def idxConst : ℕ → ℕ := fun _ => 0

/-- A small scroll-pass working state used to instantiate the recycle theorem. -/
def recycleS : ScrollState :=
  ⟨7, 0, 1, InitialBirdSpeedMin, InitialBirdSpeedMax, [⟨10, 40, 1, 1⟩], []⟩

/-- A terminal (game-over) session state. -/
def overGame : Game :=
  { player := ⟨160, 500, 3, true, false, 0, 0, BoostNone, 0⟩,
    platforms := [mkNormalPlat 10 48], birds := [⟨10, 40, 1, 1⟩], clouds := [],
    particles := [], boosts := [], bullets := [], camera := 0, score := 7,
    difficulty := 0, birdCount := 1, birdSpeedMin := InitialBirdSpeedMin,
    birdSpeedMax := InitialBirdSpeedMax, gameOver := true, weather := WeatherClear,
    weatherTimer := 10, gameTime := 5, initialTimeOfDay := 0,
    stuckToPlatform := none, stuckTimer := 0, jumpPressed := false,
    canJumpRelease := false }

/-- A state with a falling boost-free player right above a normal platform. -/
def bounceGame : Game :=
  { player := ⟨115, 281, 1, true, false, 0, 0, BoostNone, 0⟩,
    platforms := [mkNormalPlat 100 300], birds := [⟨10, 40, 1, 1⟩], clouds := [],
    particles := [], boosts := [], bullets := [], camera := 0, score := 7,
    difficulty := 0, birdCount := 1, birdSpeedMin := InitialBirdSpeedMin,
    birdSpeedMax := InitialBirdSpeedMax, gameOver := false, weather := WeatherClear,
    weatherTimer := 10, gameTime := 5, initialTimeOfDay := 0,
    stuckToPlatform := none, stuckTimer := 0, jumpPressed := false,
    canJumpRelease := false }

/-- A state stuck to a sticky platform high enough that the camera
scroll pass runs (pin plus the gravity of the previous tick carried in
position and velocity). -/
def stuckHighGame : Game :=
  { player := ⟨115, 80 + 3/20, 3/20, true, false, 0, 0, BoostNone, 0⟩,
    platforms := [⟨100, 100, PlatformSticky, PlatformIntact, 0⟩, mkNormalPlat 10 300],
    birds := [⟨10, 40, 1, 1⟩], clouds := [], particles := [], boosts := [],
    bullets := [], camera := 0, score := 0, difficulty := 0, birdCount := 1,
    birdSpeedMin := InitialBirdSpeedMin, birdSpeedMax := InitialBirdSpeedMax,
    gameOver := false, weather := WeatherClear, weatherTimer := 10, gameTime := 5,
    initialTimeOfDay := 0, stuckToPlatform := some 0, stuckTimer := 1,
    jumpPressed := false, canJumpRelease := false }

/-- An active boost far away from the player. -/
def boostBox : Boost := ⟨250, 30, 1, true⟩

/-- The bounce state carrying one untouched active boost. -/
def boostGame : Game :=
  { player := ⟨115, 281, 1, true, false, 0, 0, BoostNone, 0⟩,
    platforms := [mkNormalPlat 100 300], birds := [⟨10, 40, 1, 1⟩], clouds := [],
    particles := [], boosts := [boostBox], bullets := [], camera := 0, score := 7,
    difficulty := 0, birdCount := 1, birdSpeedMin := InitialBirdSpeedMin,
    birdSpeedMax := InitialBirdSpeedMax, gameOver := false, weather := WeatherClear,
    weatherTimer := 10, gameTime := 5, initialTimeOfDay := 0,
    stuckToPlatform := none, stuckTimer := 0, jumpPressed := false,
    canJumpRelease := false }

/-- A state about to fall past the bottom of the screen. -/
def fallingGame : Game :=
  { player := ⟨160, 478, 5, true, false, 0, 0, BoostNone, 0⟩,
    platforms := [mkNormalPlat 10 48], birds := [⟨10, 40, 1, 1⟩], clouds := [],
    particles := [], boosts := [], bullets := [], camera := 0, score := 7,
    difficulty := 0, birdCount := 1, birdSpeedMin := InitialBirdSpeedMin,
    birdSpeedMax := InitialBirdSpeedMax, gameOver := false, weather := WeatherClear,
    weatherTimer := 10, gameTime := 5, initialTimeOfDay := 0,
    stuckToPlatform := none, stuckTimer := 0, jumpPressed := false,
    canJumpRelease := false }

/-- The platform component of k consecutive ticks of the platform loop,
under an arbitrary sequence of player-side states and loop indices
(covering any pattern of further collisions). -/
def platformTicks (sts : ℕ → PlatLoopState) (idxs : ℕ → ℕ) : ℕ → Platform → Platform
  | 0, p => p
  | k+1, p => (platformStep (idxs k) (sts k) (platformTicks sts idxs k p)).1

/-! ### Basic list lemmas for the swap-remove loops -/

theorem swapRemoveAt_length_le {α : Type} (l : List α) (i : ℕ) :
    (swapRemoveAt l i).length ≤ l.length := by
  unfold swapRemoveAt
  cases hl : l.getLast? with
  | none => simp
  | some a =>
    simp only [List.length_dropLast, List.length_set]
    omega

/-! ### Counter preservation through the non-scroll phases -/

@[simp] theorem counters_weatherToggle (inp : Input) (g : Game) :
    counters (weatherTogglePhase inp g) = counters g := by
  simp only [weatherTogglePhase]
  split_ifs <;> rfl

@[simp] theorem counters_weatherTimer (r : Rng) (g : Game) (c : RngCount) :
    counters (weatherTimerPhase r g c).1 = counters g := by
  simp only [weatherTimerPhase]
  split_ifs <;> rfl

@[simp] theorem counters_particleSpawn (r : Rng) (g : Game) (c : RngCount) :
    counters (particleSpawnPhase r g c).1 = counters g := by
  simp only [particleSpawnPhase]
  split_ifs <;> rfl

@[simp] theorem counters_particleMove (g : Game) :
    counters (particleMovePhase g) = counters g := rfl

@[simp] theorem counters_stickyRelease (inp : Input) (g : Game) :
    counters (stickyReleasePhase inp g) = counters g := by
  simp only [stickyReleasePhase]
  split_ifs <;> first | rfl | (split <;> rfl)

@[simp] theorem counters_platformPhase (g : Game) :
    counters (platformPhase g) = counters g := rfl

@[simp] theorem counters_stuckPin (g : Game) :
    counters (stuckPinPhase g) = counters g := by
  unfold stuckPinPhase
  split <;> rfl

@[simp] theorem counters_boostTimer (g : Game) :
    counters (boostTimerPhase g) = counters g := by
  simp only [boostTimerPhase]
  split_ifs <;> rfl

@[simp] theorem counters_flyTimer (g : Game) :
    counters (flyTimerPhase g) = counters g := by
  simp only [flyTimerPhase]
  split_ifs <;> rfl

@[simp] theorem counters_shootTimer (g : Game) :
    counters (shootTimerPhase g) = counters g := by
  simp only [shootTimerPhase]
  split_ifs <;> rfl

@[simp] theorem counters_boostPhase (g : Game) :
    counters (boostPhase g) = counters g := rfl

@[simp] theorem counters_inputMove (inp : Input) (g : Game) :
    counters (inputMovePhase inp g) = counters g := by
  simp only [inputMovePhase]
  split_ifs <;> rfl

@[simp] theorem counters_flight (inp : Input) (g : Game) :
    counters (flightPhase inp g) = counters g := by
  simp only [flightPhase]
  split_ifs <;> rfl

@[simp] theorem counters_flyToggle (inp : Input) (g : Game) :
    counters (flyTogglePhase inp g) = counters g := by
  simp only [flyTogglePhase]
  split_ifs <;> rfl

@[simp] theorem counters_shoot (inp : Input) (g : Game) :
    counters (shootPhase inp g) = counters g := by
  simp only [shootPhase]
  split_ifs <;> rfl

@[simp] theorem counters_gravity (g : Game) :
    counters (gravityPhase g) = counters g := rfl

theorem bulletLoopGo_birds_length :
    ∀ (fuel : ℕ) (birds : List Bird) (bs : List Bullet) (i : ℕ),
      ((bulletLoopGo fuel birds bs i).1).length = birds.length := by
  intro fuel
  induction fuel with
  | zero => intro birds bs i; rfl
  | succ n ih =>
    intro birds bs i
    simp only [bulletLoopGo]
    split
    · split
      · exact ih ..
      · split
        · rw [ih]
          simp
        · exact ih ..
    · rfl

theorem birdLoopGo_length (pl : Player) :
    ∀ (go : Bool) (bs : List Bird), ((birdLoopGo pl go bs).1).length = bs.length := by
  intro go bs
  induction bs generalizing go with
  | nil => rfl
  | cons b rest ih =>
    simp only [birdLoopGo, List.length_cons]
    rw [ih]

@[simp] theorem counters_bulletPhase (g : Game) :
    counters (bulletPhase g) = counters g := by
  unfold counters bulletPhase
  simp [bulletLoopGo_birds_length]

@[simp] theorem counters_cloudMove (g : Game) :
    counters (cloudMovePhase g) = counters g := rfl

@[simp] theorem counters_birdMove (g : Game) :
    counters (birdMovePhase g) = counters g := by
  unfold counters birdMovePhase
  simp [birdLoopGo_length]

@[simp] theorem counters_fallCheck (g : Game) :
    counters (fallCheckPhase g) = counters g := by
  simp only [fallCheckPhase]
  split_ifs <;> rfl

@[simp] theorem counters_weatherSection (inp : Input) (r : Rng) (g : Game) (c : RngCount) :
    counters (weatherSection inp r g c).1 = counters g := by
  simp only [weatherSection]
  simp
  rfl

@[simp] theorem counters_physicsSection (inp : Input) (g : Game) :
    counters (physicsSection inp g) = counters g := by
  simp only [physicsSection, postPinSection, lateSection, moveSection, timersSection]
  simp

@[simp] theorem counters_preScroll (inp : Input) (r : Rng) (g : Game) (c : RngCount) :
    counters (preScrollUpdate inp r g c).1 = counters g := by
  simp only [preScrollUpdate]
  simp

/-! ### Weather and particle preservation by the physics phases -/

@[simp] theorem weatherState_stickyRelease (inp : Input) (g : Game) :
    weatherState (stickyReleasePhase inp g) = weatherState g := by
  simp only [stickyReleasePhase]
  split_ifs <;> first | rfl | (split <;> rfl)

@[simp] theorem weatherState_platformPhase (g : Game) :
    weatherState (platformPhase g) = weatherState g := rfl

@[simp] theorem weatherState_stuckPin (g : Game) :
    weatherState (stuckPinPhase g) = weatherState g := by
  unfold stuckPinPhase
  split <;> rfl

@[simp] theorem weatherState_boostTimer (g : Game) :
    weatherState (boostTimerPhase g) = weatherState g := by
  simp only [boostTimerPhase]
  split_ifs <;> rfl

@[simp] theorem weatherState_flyTimer (g : Game) :
    weatherState (flyTimerPhase g) = weatherState g := by
  simp only [flyTimerPhase]
  split_ifs <;> rfl

@[simp] theorem weatherState_shootTimer (g : Game) :
    weatherState (shootTimerPhase g) = weatherState g := by
  simp only [shootTimerPhase]
  split_ifs <;> rfl

@[simp] theorem weatherState_boostPhase (g : Game) :
    weatherState (boostPhase g) = weatherState g := rfl

@[simp] theorem weatherState_inputMove (inp : Input) (g : Game) :
    weatherState (inputMovePhase inp g) = weatherState g := by
  simp only [inputMovePhase]
  split_ifs <;> rfl

@[simp] theorem weatherState_flight (inp : Input) (g : Game) :
    weatherState (flightPhase inp g) = weatherState g := by
  simp only [flightPhase]
  split_ifs <;> rfl

@[simp] theorem weatherState_flyToggle (inp : Input) (g : Game) :
    weatherState (flyTogglePhase inp g) = weatherState g := by
  simp only [flyTogglePhase]
  split_ifs <;> rfl

@[simp] theorem weatherState_shoot (inp : Input) (g : Game) :
    weatherState (shootPhase inp g) = weatherState g := by
  simp only [shootPhase]
  split_ifs <;> rfl

@[simp] theorem weatherState_gravity (g : Game) :
    weatherState (gravityPhase g) = weatherState g := rfl

@[simp] theorem weatherState_bulletPhase (g : Game) :
    weatherState (bulletPhase g) = weatherState g := rfl

@[simp] theorem weatherState_cloudMove (g : Game) :
    weatherState (cloudMovePhase g) = weatherState g := rfl

@[simp] theorem weatherState_birdMove (g : Game) :
    weatherState (birdMovePhase g) = weatherState g := rfl

@[simp] theorem weatherState_cameraScroll (r : Rng) (g : Game) (c : RngCount) :
    weatherState (cameraScrollPhase r g c).1 = weatherState g := by
  simp only [cameraScrollPhase]
  split_ifs <;> rfl

@[simp] theorem weatherState_fallCheck (g : Game) :
    weatherState (fallCheckPhase g) = weatherState g := by
  simp only [fallCheckPhase]
  split_ifs <;> rfl

@[simp] theorem weatherState_physicsSection (inp : Input) (g : Game) :
    weatherState (physicsSection inp g) = weatherState g := by
  simp only [physicsSection, postPinSection, lateSection, moveSection, timersSection]
  simp

/-! ### Boost-pool preservation by every phase but pickup and scroll -/

@[simp] theorem boosts_weatherToggle (inp : Input) (g : Game) :
    (weatherTogglePhase inp g).boosts = g.boosts := by
  simp only [weatherTogglePhase]
  split_ifs <;> rfl

@[simp] theorem boosts_weatherTimer (r : Rng) (g : Game) (c : RngCount) :
    (weatherTimerPhase r g c).1.boosts = g.boosts := by
  simp only [weatherTimerPhase]
  split_ifs <;> rfl

@[simp] theorem boosts_particleSpawn (r : Rng) (g : Game) (c : RngCount) :
    (particleSpawnPhase r g c).1.boosts = g.boosts := by
  simp only [particleSpawnPhase]
  split_ifs <;> rfl

@[simp] theorem boosts_particleMove (g : Game) :
    (particleMovePhase g).boosts = g.boosts := rfl

@[simp] theorem boosts_stickyRelease (inp : Input) (g : Game) :
    (stickyReleasePhase inp g).boosts = g.boosts := by
  simp only [stickyReleasePhase]
  split_ifs <;> first | rfl | (split <;> rfl)

@[simp] theorem boosts_platformPhase (g : Game) :
    (platformPhase g).boosts = g.boosts := rfl

@[simp] theorem boosts_stuckPin (g : Game) :
    (stuckPinPhase g).boosts = g.boosts := by
  unfold stuckPinPhase
  split <;> rfl

@[simp] theorem boosts_boostTimer (g : Game) :
    (boostTimerPhase g).boosts = g.boosts := by
  simp only [boostTimerPhase]
  split_ifs <;> rfl

@[simp] theorem boosts_flyTimer (g : Game) :
    (flyTimerPhase g).boosts = g.boosts := by
  simp only [flyTimerPhase]
  split_ifs <;> rfl

@[simp] theorem boosts_shootTimer (g : Game) :
    (shootTimerPhase g).boosts = g.boosts := by
  simp only [shootTimerPhase]
  split_ifs <;> rfl

@[simp] theorem boosts_inputMove (inp : Input) (g : Game) :
    (inputMovePhase inp g).boosts = g.boosts := by
  simp only [inputMovePhase]
  split_ifs <;> rfl

@[simp] theorem boosts_flight (inp : Input) (g : Game) :
    (flightPhase inp g).boosts = g.boosts := by
  simp only [flightPhase]
  split_ifs <;> rfl

@[simp] theorem boosts_flyToggle (inp : Input) (g : Game) :
    (flyTogglePhase inp g).boosts = g.boosts := by
  simp only [flyTogglePhase]
  split_ifs <;> rfl

@[simp] theorem boosts_shoot (inp : Input) (g : Game) :
    (shootPhase inp g).boosts = g.boosts := by
  simp only [shootPhase]
  split_ifs <;> rfl

@[simp] theorem boosts_gravity (g : Game) : (gravityPhase g).boosts = g.boosts := rfl

@[simp] theorem boosts_bulletPhase (g : Game) : (bulletPhase g).boosts = g.boosts := rfl

@[simp] theorem boosts_cloudMove (g : Game) : (cloudMovePhase g).boosts = g.boosts := rfl

@[simp] theorem boosts_birdMove (g : Game) : (birdMovePhase g).boosts = g.boosts := rfl

@[simp] theorem boosts_fallCheck (g : Game) :
    (fallCheckPhase g).boosts = g.boosts := by
  simp only [fallCheckPhase]
  split_ifs <;> rfl

/-! ### Stuck-reference and platform preservation by the post-pin phases -/

@[simp] theorem stuck_stuckPin (g : Game) :
    (stuckPinPhase g).stuckToPlatform = g.stuckToPlatform := by
  unfold stuckPinPhase
  split <;> rfl

@[simp] theorem stuck_boostTimer (g : Game) :
    (boostTimerPhase g).stuckToPlatform = g.stuckToPlatform := by
  simp only [boostTimerPhase]
  split_ifs <;> rfl

@[simp] theorem stuck_flyTimer (g : Game) :
    (flyTimerPhase g).stuckToPlatform = g.stuckToPlatform := by
  simp only [flyTimerPhase]
  split_ifs <;> rfl

@[simp] theorem stuck_shootTimer (g : Game) :
    (shootTimerPhase g).stuckToPlatform = g.stuckToPlatform := by
  simp only [shootTimerPhase]
  split_ifs <;> rfl

@[simp] theorem stuck_boostPhase (g : Game) :
    (boostPhase g).stuckToPlatform = g.stuckToPlatform := rfl

@[simp] theorem stuck_inputMove (inp : Input) (g : Game) :
    (inputMovePhase inp g).stuckToPlatform = g.stuckToPlatform := by
  simp only [inputMovePhase]
  split_ifs <;> rfl

@[simp] theorem stuck_flight (inp : Input) (g : Game) :
    (flightPhase inp g).stuckToPlatform = g.stuckToPlatform := by
  simp only [flightPhase]
  split_ifs <;> rfl

@[simp] theorem stuck_flyToggle (inp : Input) (g : Game) :
    (flyTogglePhase inp g).stuckToPlatform = g.stuckToPlatform := by
  simp only [flyTogglePhase]
  split_ifs <;> rfl

@[simp] theorem stuck_shoot (inp : Input) (g : Game) :
    (shootPhase inp g).stuckToPlatform = g.stuckToPlatform := by
  simp only [shootPhase]
  split_ifs <;> rfl

@[simp] theorem stuck_gravity (g : Game) :
    (gravityPhase g).stuckToPlatform = g.stuckToPlatform := rfl

@[simp] theorem stuck_bulletPhase (g : Game) :
    (bulletPhase g).stuckToPlatform = g.stuckToPlatform := rfl

@[simp] theorem stuck_cloudMove (g : Game) :
    (cloudMovePhase g).stuckToPlatform = g.stuckToPlatform := rfl

@[simp] theorem stuck_birdMove (g : Game) :
    (birdMovePhase g).stuckToPlatform = g.stuckToPlatform := rfl

@[simp] theorem stuck_cameraScroll (r : Rng) (g : Game) (c : RngCount) :
    (cameraScrollPhase r g c).1.stuckToPlatform = g.stuckToPlatform := by
  simp only [cameraScrollPhase]
  split_ifs <;> rfl

@[simp] theorem stuck_fallCheck (g : Game) :
    (fallCheckPhase g).stuckToPlatform = g.stuckToPlatform := by
  simp only [fallCheckPhase]
  split_ifs <;> rfl

@[simp] theorem platforms_stuckPin (g : Game) :
    (stuckPinPhase g).platforms = g.platforms := by
  unfold stuckPinPhase
  split <;> rfl

@[simp] theorem platforms_boostTimer (g : Game) :
    (boostTimerPhase g).platforms = g.platforms := by
  simp only [boostTimerPhase]
  split_ifs <;> rfl

@[simp] theorem platforms_flyTimer (g : Game) :
    (flyTimerPhase g).platforms = g.platforms := by
  simp only [flyTimerPhase]
  split_ifs <;> rfl

@[simp] theorem platforms_shootTimer (g : Game) :
    (shootTimerPhase g).platforms = g.platforms := by
  simp only [shootTimerPhase]
  split_ifs <;> rfl

@[simp] theorem platforms_boostPhase (g : Game) :
    (boostPhase g).platforms = g.platforms := rfl

@[simp] theorem platforms_inputMove (inp : Input) (g : Game) :
    (inputMovePhase inp g).platforms = g.platforms := by
  simp only [inputMovePhase]
  split_ifs <;> rfl

@[simp] theorem platforms_flight (inp : Input) (g : Game) :
    (flightPhase inp g).platforms = g.platforms := by
  simp only [flightPhase]
  split_ifs <;> rfl

@[simp] theorem platforms_flyToggle (inp : Input) (g : Game) :
    (flyTogglePhase inp g).platforms = g.platforms := by
  simp only [flyTogglePhase]
  split_ifs <;> rfl

@[simp] theorem platforms_shoot (inp : Input) (g : Game) :
    (shootPhase inp g).platforms = g.platforms := by
  simp only [shootPhase]
  split_ifs <;> rfl

@[simp] theorem platforms_gravity (g : Game) :
    (gravityPhase g).platforms = g.platforms := rfl

@[simp] theorem platforms_bulletPhase (g : Game) :
    (bulletPhase g).platforms = g.platforms := rfl

@[simp] theorem platforms_cloudMove (g : Game) :
    (cloudMovePhase g).platforms = g.platforms := rfl

@[simp] theorem platforms_birdMove (g : Game) :
    (birdMovePhase g).platforms = g.platforms := rfl

@[simp] theorem platforms_fallCheck (g : Game) :
    (fallCheckPhase g).platforms = g.platforms := by
  simp only [fallCheckPhase]
  split_ifs <;> rfl

/-! ### Player position/velocity tracking through the post-pin phases -/

theorem applyBoost_geom (pl : Player) (b : Boost) :
    (applyBoost pl b).x = pl.x ∧ (applyBoost pl b).y = pl.y ∧
      (applyBoost pl b).velocityY = pl.velocityY := by
  unfold applyBoost
  split_ifs <;> exact ⟨rfl, rfl, rfl⟩

theorem boostLoopGo_player_geom :
    ∀ (fuel : ℕ) (pl : Player) (bs : List Boost) (i : ℕ),
      ((boostLoopGo fuel pl bs i).1).x = pl.x ∧ ((boostLoopGo fuel pl bs i).1).y = pl.y ∧
        ((boostLoopGo fuel pl bs i).1).velocityY = pl.velocityY := by
  intro fuel
  induction fuel with
  | zero => intro pl bs i; exact ⟨rfl, rfl, rfl⟩
  | succ n ih =>
    intro pl bs i
    simp only [boostLoopGo]
    split
    · split_ifs with hhit hact
      · obtain ⟨h1, h2, h3⟩ := ih (applyBoost pl _) (swapRemoveAt _ i) i
        obtain ⟨g1, g2, g3⟩ := applyBoost_geom pl _
        exact ⟨h1.trans g1, h2.trans g2, h3.trans g3⟩
      · obtain ⟨h1, h2, h3⟩ := ih (applyBoost pl _) _ (i+1)
        obtain ⟨g1, g2, g3⟩ := applyBoost_geom pl _
        exact ⟨h1.trans g1, h2.trans g2, h3.trans g3⟩
      · exact ih ..
      · exact ih ..
    · exact ⟨rfl, rfl, rfl⟩

@[simp] theorem posVel_boostTimer (g : Game) : posVel (boostTimerPhase g) = posVel g := by
  simp only [boostTimerPhase]
  split_ifs <;> rfl

@[simp] theorem posVel_flyTimer (g : Game) : posVel (flyTimerPhase g) = posVel g := by
  simp only [flyTimerPhase]
  split_ifs <;> rfl

@[simp] theorem posVel_shootTimer (g : Game) : posVel (shootTimerPhase g) = posVel g := by
  simp only [shootTimerPhase]
  split_ifs <;> rfl

@[simp] theorem posVel_boostPhase (g : Game) : posVel (boostPhase g) = posVel g := by
  unfold posVel boostPhase
  obtain ⟨-, h2, h3⟩ := boostLoopGo_player_geom g.boosts.length g.player g.boosts 0
  simp [h2, h3]

@[simp] theorem posVel_inputMove (inp : Input) (g : Game) :
    posVel (inputMovePhase inp g) = posVel g := by
  simp only [inputMovePhase]
  split_ifs <;> rfl

@[simp] theorem posVel_flyToggle (inp : Input) (g : Game) :
    posVel (flyTogglePhase inp g) = posVel g := by
  simp only [flyTogglePhase]
  split_ifs <;> rfl

@[simp] theorem posVel_shoot (inp : Input) (g : Game) :
    posVel (shootPhase inp g) = posVel g := by
  simp only [shootPhase]
  split_ifs <;> rfl

theorem flightPhase_y (inp : Input) (g : Game) :
    (flightPhase inp g).player.y = g.player.y := by
  simp only [flightPhase]
  split_ifs <;> rfl

theorem flightPhase_vel (inp : Input) (g : Game) :
    (flightPhase inp g).player.velocityY = -4 ∨
      (flightPhase inp g).player.velocityY = g.player.velocityY := by
  simp only [flightPhase]
  split_ifs
  · exact Or.inl rfl
  · exact Or.inr rfl

@[simp] theorem player_bulletPhase (g : Game) : (bulletPhase g).player = g.player := rfl

@[simp] theorem player_cloudMove (g : Game) : (cloudMovePhase g).player = g.player := rfl

@[simp] theorem player_birdMove (g : Game) : (birdMovePhase g).player = g.player := rfl

@[simp] theorem player_fallCheck (g : Game) : (fallCheckPhase g).player = g.player := by
  simp only [fallCheckPhase]
  split_ifs <;> rfl

@[simp] theorem vel_cameraScroll (r : Rng) (g : Game) (c : RngCount) :
    (cameraScrollPhase r g c).1.player.velocityY = g.player.velocityY := by
  simp only [cameraScrollPhase]
  split_ifs <;> rfl

/-! ### The recycle pass: score, difficulty and bird pool -/

theorem appendBirdsGo_length (r : Rng) (a b : ℚ) :
    ∀ (n j : ℕ) (bs : List Bird) (c : RngCount),
      ((appendBirdsGo r a b j n bs c).1).length = bs.length + n := by
  intro n
  induction n with
  | zero => intro j bs c; rfl
  | succ m ih =>
    intro j bs c
    simp only [appendBirdsGo]
    rw [ih]
    simp
    omega

theorem difficultyStep_SInv (r : Rng) (s : ScrollState) (c : RngCount)
    (hd : s.difficulty ≤ s.score / ScorePerDifficulty)
    (hb : s.birdCount = min (InitialBirdCount + s.difficulty) MaxBirdCount)
    (hl : s.birds.length = s.birdCount)
    (hmin : s.birdSpeedMin = birdSpeedMinFor s.difficulty)
    (hmax : s.birdSpeedMax = birdSpeedMaxFor s.difficulty) :
    SInv (difficultyStep r s c).1 := by
  simp only [difficultyStep, SInv]
  split_ifs with hgt hbc
  all_goals dsimp only
  · refine ⟨rfl, rfl, ?_, rfl, rfl⟩
    rw [appendBirdsGo_length, hl]
    omega
  · refine ⟨rfl, ?_, hl, rfl, rfl⟩
    omega
  · exact ⟨by omega, hb, hl, hmin, hmax⟩

theorem recyclePlatform_SInv (r : Rng) (p : Platform) (s : ScrollState) (c : RngCount)
    (h : SInv s) : SInv (recyclePlatform r p s c).2.1 := by
  obtain ⟨h1, h2, h3, h4, h5⟩ := h
  have key : SInv (difficultyStep r { s with score := s.score + 1 } c.nextF.nextF).1 := by
    refine difficultyStep_SInv r _ _ ?_ h2 h3 h4 h5
    show s.difficulty ≤ (s.score + 1) / ScorePerDifficulty
    calc s.difficulty = s.score / ScorePerDifficulty := h1
      _ ≤ (s.score + 1) / ScorePerDifficulty := Nat.div_le_div_right (Nat.le_succ _)
  simp only [recyclePlatform]
  split_ifs <;> exact key

theorem difficultyStep_mono (r : Rng) (s : ScrollState) (c : RngCount) :
    s.difficulty ≤ (difficultyStep r s c).1.difficulty ∧
      (difficultyStep r s c).1.score = s.score ∧
      s.birds.length ≤ (difficultyStep r s c).1.birds.length ∧
      ((difficultyStep r s c).1.difficulty = s.difficulty →
        (difficultyStep r s c).1.birds.length = s.birds.length) ∧
      (difficultyStep r s c).1.boosts = s.boosts := by
  simp only [difficultyStep]
  split_ifs with hgt hbc
  all_goals dsimp only
  · refine ⟨le_of_lt hgt, rfl, ?_, ?_, rfl⟩
    · rw [appendBirdsGo_length]
      omega
    · intro h
      exact absurd h (by omega)
  · refine ⟨le_of_lt hgt, rfl, le_rfl, fun _ => rfl, rfl⟩
  · exact ⟨le_rfl, rfl, le_rfl, fun _ => rfl, rfl⟩

theorem recyclePlatform_mono (r : Rng) (p : Platform) (s : ScrollState) (c : RngCount) :
    s.difficulty ≤ (recyclePlatform r p s c).2.1.difficulty ∧
      (recyclePlatform r p s c).2.1.score = s.score + 1 ∧
      s.birds.length ≤ (recyclePlatform r p s c).2.1.birds.length ∧
      ((recyclePlatform r p s c).2.1.difficulty = s.difficulty →
        (recyclePlatform r p s c).2.1.birds.length = s.birds.length) ∧
      (∃ tl, (recyclePlatform r p s c).2.1.boosts = s.boosts ++ tl) := by
  have key := difficultyStep_mono r { s with score := s.score + 1 } c.nextF.nextF
  obtain ⟨k1, k2, k3, k4, k5⟩ := key
  simp only [recyclePlatform]
  split_ifs <;> refine ⟨k1, k2, k3, k4, ?_⟩ <;>
    simp only [k5] <;> (try dsimp only) <;>
    first
      | exact ⟨_, rfl⟩
      | exact ⟨[], (List.append_nil _).symm⟩

theorem platformScrollGo_SInv (r : Rng) (diff : ℚ) :
    ∀ (ps : List Platform) (s : ScrollState) (c : RngCount),
      SInv s → SInv (platformScrollGo r diff ps s c).2.1 := by
  intro ps
  induction ps with
  | nil => intro s c h; exact h
  | cons p rest ih =>
    intro s c h
    simp only [platformScrollGo]
    split_ifs with hrec
    · exact ih _ _ (recyclePlatform_SInv r _ s c h)
    · exact ih _ _ h

theorem platformScrollGo_mono (r : Rng) (diff : ℚ) :
    ∀ (ps : List Platform) (s : ScrollState) (c : RngCount),
      s.difficulty ≤ (platformScrollGo r diff ps s c).2.1.difficulty ∧
        s.birds.length ≤ (platformScrollGo r diff ps s c).2.1.birds.length ∧
        ((platformScrollGo r diff ps s c).2.1.difficulty = s.difficulty →
          (platformScrollGo r diff ps s c).2.1.birds.length = s.birds.length) ∧
        (∃ tl, (platformScrollGo r diff ps s c).2.1.boosts = s.boosts ++ tl) := by
  intro ps
  induction ps with
  | nil =>
    intro s c
    exact ⟨le_rfl, le_rfl, fun _ => rfl, [], (List.append_nil _).symm⟩
  | cons p rest ih =>
    intro s c
    simp only [platformScrollGo]
    split_ifs with hrec
    · obtain ⟨m1, m2, m3, m4, m5⟩ :=
        recyclePlatform_mono r { p with y := p.y + diff } s c
      obtain ⟨i1, i2, i3, i4⟩ :=
        ih (recyclePlatform r { p with y := p.y + diff } s c).2.1
          (recyclePlatform r { p with y := p.y + diff } s c).2.2
      refine ⟨le_trans m1 i1, le_trans m3 i2, ?_, ?_⟩
      · intro he
        rw [i3 (by omega), m4 (by omega)]
      · obtain ⟨t1, ht1⟩ := m5
        obtain ⟨t2, ht2⟩ := i4
        exact ⟨t1 ++ t2, by rw [ht2, ht1, List.append_assoc]⟩
    · exact ih s c

theorem platformScrollGo_length (r : Rng) (diff : ℚ) :
    ∀ (ps : List Platform) (s : ScrollState) (c : RngCount),
      ((platformScrollGo r diff ps s c).1).length = ps.length := by
  intro ps
  induction ps with
  | nil => intro s c; rfl
  | cons p rest ih =>
    intro s c
    simp only [platformScrollGo]
    split_ifs <;> simp [ih]

theorem birdScrollGo_length (r : Rng) (d a b : ℚ) :
    ∀ (n i : ℕ) (birds : List Bird) (c : RngCount),
      ((birdScrollGo r d a b n i birds c).1).length = birds.length := by
  intro n
  induction n with
  | zero => intro i birds c; rfl
  | succ m ih =>
    intro i birds c
    simp only [birdScrollGo]
    split_ifs <;> rw [ih] <;> simp

theorem scoreInv_cameraScroll (r : Rng) (c : RngCount) (g : Game) (h : ScoreInv g) :
    ScoreInv (cameraScrollPhase r g c).1 := by
  obtain ⟨h1, h2, h3, h4, h5⟩ := h
  simp only [cameraScrollPhase]
  split_ifs with hs
  · have hS : SInv ⟨g.score, g.difficulty, g.birdCount, g.birdSpeedMin,
        g.birdSpeedMax, g.birds, g.boosts⟩ := ⟨h1, h2, h3, h4, h5⟩
    have h2 := platformScrollGo_SInv r (highPoint - g.player.y) g.platforms
      ⟨g.score, g.difficulty, g.birdCount, g.birdSpeedMin,
        g.birdSpeedMax, g.birds, g.boosts⟩ c hS
    obtain ⟨a1, a2, a3, a4, a5⟩ := h2
    exact ⟨a1, a2, by rw [birdScrollGo_length]; exact a3, a4, a5⟩
  · exact ⟨h1, h2, h3, h4, h5⟩

theorem counters_eq_fields (g' g : Game) (h : counters g' = counters g) :
    g'.score = g.score ∧ g'.difficulty = g.difficulty ∧ g'.birdCount = g.birdCount ∧
      g'.birds.length = g.birds.length ∧ g'.birdSpeedMin = g.birdSpeedMin ∧
      g'.birdSpeedMax = g.birdSpeedMax := by
  unfold counters at h
  simpa [Prod.ext_iff] using h

theorem scoreInv_of_counters (g' g : Game) (hc : counters g' = counters g)
    (h : ScoreInv g) : ScoreInv g' := by
  obtain ⟨e1, e2, e3, e4, e5, e6⟩ := counters_eq_fields g' g hc
  obtain ⟨h1, h2, h3, h4, h5⟩ := h
  exact ⟨by rw [e1, e2]; exact h1, by rw [e2, e3]; exact h2,
    by rw [e3, e4]; exact h3, by rw [e2, e5]; exact h4, by rw [e2, e6]; exact h5⟩

theorem initBirdsGo_length (r : Rng) (a b : ℚ) :
    ∀ (n : ℕ) (c : RngCount), ((initBirdsGo r a b n c).1).length = n := by
  intro n
  induction n with
  | zero => intro c; rfl
  | succ m ih => intro c; simp only [initBirdsGo]; simp [ih]

theorem birdSpeedMinFor_zero : birdSpeedMinFor 0 = InitialBirdSpeedMin := by
  unfold birdSpeedMinFor progressFactor
  norm_num

theorem birdSpeedMaxFor_zero : birdSpeedMaxFor 0 = InitialBirdSpeedMax := by
  unfold birdSpeedMaxFor progressFactor
  norm_num

theorem scoreInv_newGame (r : Rng) (c : RngCount) : ScoreInv (newGame r c).1 := by
  simp only [newGame, ScoreInv]
  refine ⟨rfl, by decide, ?_, birdSpeedMinFor_zero.symm, birdSpeedMaxFor_zero.symm⟩
  exact initBirdsGo_length r _ _ _ _

theorem scoreInv_update (inp : Input) (r : Rng) (c : RngCount) (g : Game)
    (h : ScoreInv g) : ScoreInv (update inp r g c).1 := by
  unfold update
  split_ifs with hgo hsp
  · exact scoreInv_newGame r c
  · exact h
  · simp only [updateRun]
    have hpre : ScoreInv (preScrollUpdate inp r g c).1 :=
      scoreInv_of_counters _ _ (counters_preScroll inp r g c) h
    have hscr := scoreInv_cameraScroll r (preScrollUpdate inp r g c).2 _ hpre
    exact scoreInv_of_counters _ _ (counters_fallCheck _) hscr

theorem reachable_scoreInv (g : Game) (h : Reachable g) : ScoreInv g := by
  induction h with
  | init r c => exact scoreInv_newGame r c
  | step inp r c g hg ih => exact scoreInv_update inp r c g ih

theorem cameraScroll_mono (r : Rng) (c : RngCount) (g : Game) :
    g.difficulty ≤ (cameraScrollPhase r g c).1.difficulty ∧
      g.birds.length ≤ (cameraScrollPhase r g c).1.birds.length ∧
      ((cameraScrollPhase r g c).1.difficulty = g.difficulty →
        (cameraScrollPhase r g c).1.birds.length = g.birds.length) ∧
      (∃ tl, (cameraScrollPhase r g c).1.boosts = g.boosts ++ tl) := by
  simp only [cameraScrollPhase]
  split_ifs with hs
  · obtain ⟨m1, m2, m3, m4⟩ := platformScrollGo_mono r (highPoint - g.player.y) g.platforms
      ⟨g.score, g.difficulty, g.birdCount, g.birdSpeedMin, g.birdSpeedMax,
        g.birds, g.boosts⟩ c
    refine ⟨m1, ?_, ?_, m4⟩
    · rw [birdScrollGo_length]
      exact m2
    · intro he
      rw [birdScrollGo_length]
      exact m3 he
  · exact ⟨le_rfl, le_rfl, fun _ => rfl, [], (List.append_nil _).symm⟩

theorem update_mono (inp : Input) (r : Rng) (c : RngCount) (g : Game)
    (hgo : g.gameOver = false) :
    g.difficulty ≤ (update inp r g c).1.difficulty ∧
      g.birds.length ≤ (update inp r g c).1.birds.length ∧
      ((update inp r g c).1.difficulty = g.difficulty →
        (update inp r g c).1.birds.length = g.birds.length) := by
  have hupd : update inp r g c = updateRun inp r g c := by
    unfold update
    simp [hgo]
  rw [hupd]
  simp only [updateRun]
  obtain ⟨e1, e2, e3, e4, e5, e6⟩ := counters_eq_fields _ g (counters_preScroll inp r g c)
  obtain ⟨s1, s2, s3, -⟩ :=
    cameraScroll_mono r (preScrollUpdate inp r g c).2 (preScrollUpdate inp r g c).1
  obtain ⟨f1, f2, f3, f4, f5, f6⟩ := counters_eq_fields _ _
    (counters_fallCheck (cameraScrollPhase r (preScrollUpdate inp r g c).1
      (preScrollUpdate inp r g c).2).1)
  refine ⟨?_, ?_, ?_⟩
  · rw [f2, ← e2]
    exact s1
  · rw [f4, ← e4]
    exact s2
  · intro he
    rw [f2] at he
    rw [f4, ← e4]
    exact s3 (by omega)

/-! ### Bird speed interpolation: bounds and monotonicity -/

theorem progressFactor_nonneg (d : ℕ) : 0 ≤ progressFactor d := by
  simp only [progressFactor]
  split_ifs with h
  · norm_num
  · positivity

theorem progressFactor_le_one (d : ℕ) : progressFactor d ≤ 1 := by
  simp only [progressFactor]
  split_ifs with h
  · exact le_rfl
  · exact le_of_not_lt h

theorem progressFactor_mono {d e : ℕ} (h : d ≤ e) :
    progressFactor d ≤ progressFactor e := by
  have hde : (d : ℚ) / 10 ≤ (e : ℚ) / 10 := by
    have : (d : ℚ) ≤ (e : ℚ) := by exact_mod_cast h
    linarith
  simp only [progressFactor]
  split_ifs with h1 h2
  · exact le_rfl
  · linarith
  · linarith [le_of_not_lt h1]
  · exact hde

theorem birdSpeedMinFor_lower (d : ℕ) : InitialBirdSpeedMin ≤ birdSpeedMinFor d := by
  have h0 := progressFactor_nonneg d
  simp only [birdSpeedMinFor, InitialBirdSpeedMin, MaxBirdSpeedMin]
  nlinarith

theorem birdSpeedMaxFor_upper (d : ℕ) : birdSpeedMaxFor d ≤ MaxBirdSpeedMax := by
  have h0 := progressFactor_nonneg d
  have h1 := progressFactor_le_one d
  simp only [birdSpeedMaxFor, InitialBirdSpeedMax, MaxBirdSpeedMax]
  nlinarith

theorem birdSpeedMinFor_mono {d e : ℕ} (h : d ≤ e) :
    birdSpeedMinFor d ≤ birdSpeedMinFor e := by
  have hm := progressFactor_mono h
  simp only [birdSpeedMinFor, InitialBirdSpeedMin, MaxBirdSpeedMin]
  nlinarith

theorem birdSpeedMaxFor_mono {d e : ℕ} (h : d ≤ e) :
    birdSpeedMaxFor d ≤ birdSpeedMaxFor e := by
  have hm := progressFactor_mono h
  simp only [birdSpeedMaxFor, InitialBirdSpeedMax, MaxBirdSpeedMax]
  nlinarith

/-! ### Claim theorems C2 and C7 -/

/-- C2: at every reachable state (in particular after any platform-recycle
event) difficulty equals floor(score / 20); the bird pool size equals
min(InitialBirdCount + difficulty, MaxBirdCount) and never exceeds
MaxBirdCount = 8; over any non-terminal tick the difficulty is
non-decreasing and birds are only appended, never removed, with the pool
size changing only when the difficulty changes. -/
theorem claim_difficulty_birdpool_invariant :
    (∀ g : Game, Reachable g →
      g.difficulty = g.score / ScorePerDifficulty ∧
      g.birds.length = min (InitialBirdCount + g.difficulty) MaxBirdCount ∧
      g.birds.length ≤ MaxBirdCount) ∧
    (∀ (inp : Input) (r : Rng) (c : RngCount) (g : Game), g.gameOver = false →
      g.difficulty ≤ (update inp r g c).1.difficulty ∧
      g.birds.length ≤ (update inp r g c).1.birds.length ∧
      ((update inp r g c).1.difficulty = g.difficulty →
        (update inp r g c).1.birds.length = g.birds.length)) := by
  constructor
  · intro g hg
    obtain ⟨h1, h2, h3, -, -⟩ := reachable_scoreInv g hg
    refine ⟨h1, by rw [h3, h2], by rw [h3, h2]; omega⟩
  · intro inp r c g hgo
    exact update_mono inp r c g hgo

/-- Witness for C2 at the freshly initialized session and one concrete
non-terminal tick. -/
theorem claim_difficulty_birdpool_invariant_witness :
    Reachable (newGame oneRng ⟨0, 0⟩).1 ∧
    ((newGame oneRng ⟨0, 0⟩).1.difficulty =
        (newGame oneRng ⟨0, 0⟩).1.score / ScorePerDifficulty ∧
      (newGame oneRng ⟨0, 0⟩).1.birds.length =
        min (InitialBirdCount + (newGame oneRng ⟨0, 0⟩).1.difficulty) MaxBirdCount ∧
      (newGame oneRng ⟨0, 0⟩).1.birds.length ≤ MaxBirdCount) ∧
    fallingGame.gameOver = false ∧
    (fallingGame.difficulty ≤ (update noInput oneRng fallingGame ⟨0, 0⟩).1.difficulty ∧
      fallingGame.birds.length ≤ (update noInput oneRng fallingGame ⟨0, 0⟩).1.birds.length ∧
      ((update noInput oneRng fallingGame ⟨0, 0⟩).1.difficulty = fallingGame.difficulty →
        (update noInput oneRng fallingGame ⟨0, 0⟩).1.birds.length =
          fallingGame.birds.length)) :=
  ⟨Reachable.init oneRng ⟨0, 0⟩,
    claim_difficulty_birdpool_invariant.1 _ (Reachable.init oneRng ⟨0, 0⟩),
    rfl,
    claim_difficulty_birdpool_invariant.2 noInput oneRng ⟨0, 0⟩ fallingGame rfl⟩

/-- C7: at every reachable state the bird speed range equals the linear
interpolation from (0.7, 1.5) to (2.5, 4.0) by progress = min(difficulty/10, 1),
its bounds stay within [0.7, 4.0], and both interpolants are monotonically
non-decreasing in the difficulty. -/
theorem claim_birdspeed_range :
    (∀ g : Game, Reachable g →
      g.birdSpeedMin = birdSpeedMinFor g.difficulty ∧
      g.birdSpeedMax = birdSpeedMaxFor g.difficulty ∧
      InitialBirdSpeedMin ≤ g.birdSpeedMin ∧ g.birdSpeedMax ≤ MaxBirdSpeedMax) ∧
    (∀ d e : ℕ, d ≤ e →
      birdSpeedMinFor d ≤ birdSpeedMinFor e ∧ birdSpeedMaxFor d ≤ birdSpeedMaxFor e) := by
  constructor
  · intro g hg
    obtain ⟨-, -, -, h4, h5⟩ := reachable_scoreInv g hg
    refine ⟨h4, h5, ?_, ?_⟩
    · rw [h4]
      exact birdSpeedMinFor_lower _
    · rw [h5]
      exact birdSpeedMaxFor_upper _
  · intro d e h
    exact ⟨birdSpeedMinFor_mono h, birdSpeedMaxFor_mono h⟩

/-! ### Claim theorem C6: the terminal state -/

/-- C6: when the player's Y exceeds the viewport height at the end of a
non-terminal tick the terminal flag is set; while terminal, a tick without
the restart input changes nothing at all (no physics, collision, score,
weather or entity update), and the restart input rebuilds the session
exactly as a brand-new one. -/
theorem claim_terminal_state :
    (∀ (inp : Input) (r : Rng) (c : RngCount) (g : Game), g.gameOver = false →
      (update inp r g c).1.player.y > (ScreenHeight : ℚ) →
      (update inp r g c).1.gameOver = true) ∧
    (∀ (inp : Input) (r : Rng) (c : RngCount) (g : Game), g.gameOver = true →
      inp.spaceHeld = false → update inp r g c = (g, c)) ∧
    (∀ (inp : Input) (r : Rng) (c : RngCount) (g : Game), g.gameOver = true →
      inp.spaceHeld = true → update inp r g c = newGame r c) := by
  refine ⟨?_, ?_, ?_⟩
  · intro inp r c g hgo hy
    have hupd : update inp r g c = updateRun inp r g c := by
      unfold update
      simp [hgo]
    rw [hupd] at hy ⊢
    simp only [updateRun] at hy ⊢
    rw [player_fallCheck] at hy
    simp only [fallCheckPhase]
    rw [if_pos hy]
  · intro inp r c g hgo hsp
    unfold update
    simp [hgo, hsp]
  · intro inp r c g hgo hsp
    unfold update
    simp [hgo, hsp]

/-- Witness for C6: a fall past the bottom, a frozen terminal tick, and a
restart tick. -/
theorem claim_terminal_state_witness :
    fallingGame.gameOver = false ∧
    (update noInput oneRng fallingGame ⟨0, 0⟩).1.player.y > (ScreenHeight : ℚ) ∧
    (update noInput oneRng fallingGame ⟨0, 0⟩).1.gameOver = true ∧
    overGame.gameOver = true ∧ noInput.spaceHeld = false ∧
    update noInput oneRng overGame ⟨0, 0⟩ = (overGame, ⟨0, 0⟩) ∧
    spaceInput.spaceHeld = true ∧
    update spaceInput oneRng overGame ⟨0, 0⟩ = newGame oneRng ⟨0, 0⟩ := by
  have hy : (update noInput oneRng fallingGame ⟨0, 0⟩).1.player.y > (ScreenHeight : ℚ) := by
    norm_num [update, updateRun, preScrollUpdate, weatherSection, physicsSection,
      postPinSection, lateSection, moveSection, timersSection, weatherTogglePhase,
      weatherTimerPhase, particleSpawnPhase, particleMovePhase, particleMoveLoop,
      stickyReleasePhase, platformPhase, platformLoopGo, platformStep, platformCollides,
      jumpForceOf, stuckPinPhase, boostTimerPhase, flyTimerPhase, shootTimerPhase,
      boostPhase, boostLoopGo, inputMovePhase, flightPhase, flyTogglePhase, shootPhase,
      gravityPhase, bulletPhase, bulletLoopGo, cloudMovePhase, birdMovePhase, birdLoopGo,
      birdStep, birdOverlapsPlayer, cameraScrollPhase, fallCheckPhase, highPoint,
      fallingGame, noInput, oneRng, mkNormalPlat, WeatherClear, WeatherRain, WeatherSnow,
      RaindropCount, SnowflakeCount, InitialBirdSpeedMin, InitialBirdSpeedMax,
      BoostNone, BoostShield, BoostJump, BoostSpeed, PlatformSticky, PlatformNormal,
      PlatformDisappearing, PlatformIntact, PlatformBreaking, PlatformBroken, ScreenWidth,
      ScreenHeight, PlayerWidth, PlayerHeight, PlatformWidth, PlatformHeight, BirdWidth,
      BirdHeight, Gravity, JumpVelocity, RngCount.nextF, RngCount.nextI, Rng.intn,
      defaultPlatform, defaultBird]
  exact ⟨rfl, hy, claim_terminal_state.1 noInput oneRng ⟨0, 0⟩ fallingGame rfl hy,
    rfl, rfl, claim_terminal_state.2.1 noInput oneRng ⟨0, 0⟩ overGame rfl rfl,
    rfl, claim_terminal_state.2.2 spaceInput oneRng ⟨0, 0⟩ overGame rfl rfl⟩

/-! ### Claim theorem C3: stuck pin versus gravity (corrected) -/

@[simp] theorem stuck_postPin (inp : Input) (g : Game) :
    (postPinSection inp g).stuckToPlatform = g.stuckToPlatform := by
  simp [postPinSection, lateSection, moveSection, timersSection]

theorem postPin_vel (inp : Input) (g : Game) (h0 : g.player.velocityY = 0) :
    (postPinSection inp g).player.velocityY = Gravity ∨
      (postPinSection inp g).player.velocityY = -4 + Gravity := by
  have hA : posVel (inputMovePhase inp (boostPhase (timersSection g))) = posVel g := by
    simp [timersSection]
  have hAv : (inputMovePhase inp (boostPhase (timersSection g))).player.velocityY = 0 := by
    have hs := congrArg Prod.snd hA
    simp only [posVel] at hs
    rw [hs, h0]
  have hfly : posVel (shootPhase inp (flyTogglePhase inp
      (flightPhase inp (inputMovePhase inp (boostPhase (timersSection g)))))) =
      posVel (flightPhase inp (inputMovePhase inp (boostPhase (timersSection g)))) := by
    simp
  have hlate : ∀ h : Game, (lateSection h).player = h.player := by
    intro h
    simp [lateSection]
  simp only [postPinSection, moveSection]
  rw [hlate]
  have hgv : (gravityPhase (shootPhase inp (flyTogglePhase inp (flightPhase inp
      (inputMovePhase inp (boostPhase (timersSection g))))))).player.velocityY =
      (flightPhase inp (inputMovePhase inp (boostPhase (timersSection g)))).player.velocityY
        + Gravity := by
    have hv := congrArg Prod.snd hfly
    simp only [posVel] at hv
    show (shootPhase inp (flyTogglePhase inp (flightPhase inp
      (inputMovePhase inp (boostPhase (timersSection g)))))).player.velocityY + Gravity = _
    rw [hv]
  rw [hgv]
  rcases flightPhase_vel inp (inputMovePhase inp (boostPhase (timersSection g))) with hf | hf
  · right
    rw [hf]
  · left
    rw [hf, hAv, zero_add]

/-- C3 (amended): the stuck pin, run before gravity in the same tick,
zeroes the vertical velocity and pins Y to the platform top minus half the
player height; but the gravity integration (velocityY += Gravity then
Y += velocityY) is applied unconditionally every tick, stuck or not, so a
tick that ends still stuck ends with velocityY = Gravity (or
-4 + Gravity under flight), not 0. -/
theorem claim_stuck_gravity_amended :
    (∀ (g : Game) (i : ℕ), g.stuckToPlatform = some i →
      (stuckPinPhase g).player.velocityY = 0 ∧
      (stuckPinPhase g).player.y =
        (g.platforms.getD i defaultPlatform).y - ((PlayerHeight / 2 : ℕ) : ℚ)) ∧
    (∀ g : Game, (gravityPhase g).player.velocityY = g.player.velocityY + Gravity ∧
      (gravityPhase g).player.y = g.player.y + (g.player.velocityY + Gravity)) ∧
    (∀ (inp : Input) (r : Rng) (c : RngCount) (g : Game) (i : ℕ),
      (updateRun inp r g c).1.stuckToPlatform = some i →
      (updateRun inp r g c).1.player.velocityY = Gravity ∨
        (updateRun inp r g c).1.player.velocityY = -4 + Gravity) := by
  refine ⟨?_, ?_, ?_⟩
  · intro g i h
    simp [stuckPinPhase, h]
  · intro g
    exact ⟨rfl, rfl⟩
  · intro inp r c g i h
    simp only [updateRun, preScrollUpdate, stuck_fallCheck, stuck_cameraScroll,
      physicsSection, stuck_postPin, stuck_stuckPin] at h
    have hvel0 : (stuckPinPhase (platformPhase
        (stickyReleasePhase inp (weatherSection inp r g c).1))).player.velocityY = 0 := by
      simp only [stuckPinPhase, h]
    have hmain := postPin_vel inp (stuckPinPhase (platformPhase
      (stickyReleasePhase inp (weatherSection inp r g c).1))) hvel0
    have hfinal : (updateRun inp r g c).1.player.velocityY =
        (physicsSection inp (weatherSection inp r g c).1).player.velocityY := by
      simp [updateRun, preScrollUpdate]
    rw [hfinal]
    simpa [physicsSection] using hmain

/-- Witness for C3's amended theorem on a concrete stuck tick. -/
theorem claim_stuck_gravity_amended_witness :
    stuckGame.stuckToPlatform = some 0 ∧
    ((stuckPinPhase stuckGame).player.velocityY = 0 ∧
      (stuckPinPhase stuckGame).player.y =
        (stuckGame.platforms.getD 0 defaultPlatform).y - ((PlayerHeight / 2 : ℕ) : ℚ)) ∧
    ((gravityPhase stuckGame).player.velocityY = stuckGame.player.velocityY + Gravity ∧
      (gravityPhase stuckGame).player.y =
        stuckGame.player.y + (stuckGame.player.velocityY + Gravity)) ∧
    (updateRun noInput oneRng stuckGame ⟨0, 0⟩).1.stuckToPlatform = some 0 ∧
    ((updateRun noInput oneRng stuckGame ⟨0, 0⟩).1.player.velocityY = Gravity ∨
      (updateRun noInput oneRng stuckGame ⟨0, 0⟩).1.player.velocityY = -4 + Gravity) := by
  have hstuck : (updateRun noInput oneRng stuckGame ⟨0, 0⟩).1.stuckToPlatform = some 0 := by
    norm_num [updateRun, preScrollUpdate, weatherSection, physicsSection,
      postPinSection, lateSection, moveSection, timersSection, weatherTogglePhase,
      weatherTimerPhase, particleSpawnPhase, particleMovePhase, particleMoveLoop,
      stickyReleasePhase, platformPhase, platformLoopGo, platformStep, platformCollides,
      jumpForceOf, stuckPinPhase, boostTimerPhase, flyTimerPhase, shootTimerPhase,
      boostPhase, boostLoopGo, inputMovePhase, flightPhase, flyTogglePhase, shootPhase,
      gravityPhase, bulletPhase, bulletLoopGo, cloudMovePhase, birdMovePhase, birdLoopGo,
      birdStep, birdOverlapsPlayer, cameraScrollPhase, fallCheckPhase, highPoint,
      stuckGame, noInput, oneRng, mkNormalPlat, birdSpeedMinFor, birdSpeedMaxFor,
      progressFactor, WeatherClear, WeatherRain, WeatherSnow, RaindropCount,
      SnowflakeCount, BoostNone, BoostShield, BoostJump, BoostSpeed,
      PlatformSticky, PlatformNormal, PlatformDisappearing, PlatformIntact,
      PlatformBreaking, PlatformBroken, ScreenWidth, ScreenHeight, PlayerWidth,
      PlayerHeight, PlatformWidth, PlatformHeight, BirdWidth, BirdHeight, Gravity,
      JumpVelocity, RngCount.nextF, RngCount.nextI, Rng.intn, defaultPlatform,
      defaultBird]
  exact ⟨rfl, claim_stuck_gravity_amended.1 stuckGame 0 rfl,
    claim_stuck_gravity_amended.2.1 stuckGame, hstuck,
    claim_stuck_gravity_amended.2.2 noInput oneRng ⟨0, 0⟩ stuckGame 0 hstuck⟩

/-- C3 counterexample: a tick in which the player is and stays stuck to
the sticky platform at index 0 ends with velocityY = Gravity ≠ 0 and with
Y off the pinned position by Gravity, because Update integrates gravity
unconditionally after the pin. -/
theorem claim_stuck_gravity_counterexample :
    stuckGame.stuckToPlatform = some 0 ∧
    (stuckGame.platforms.getD 0 defaultPlatform).ptype = PlatformSticky ∧
    (update noInput oneRng stuckGame ⟨0, 0⟩).1.stuckToPlatform = some 0 ∧
    (update noInput oneRng stuckGame ⟨0, 0⟩).1.player.velocityY ≠ 0 ∧
    (update noInput oneRng stuckGame ⟨0, 0⟩).1.player.y ≠
      ((update noInput oneRng stuckGame ⟨0, 0⟩).1.platforms.getD 0 defaultPlatform).y -
        ((PlayerHeight / 2 : ℕ) : ℚ) := by
  norm_num [update, updateRun, preScrollUpdate, weatherSection, physicsSection,
    postPinSection, lateSection, moveSection, timersSection, weatherTogglePhase,
    weatherTimerPhase, particleSpawnPhase, particleMovePhase, particleMoveLoop,
    stickyReleasePhase, platformPhase, platformLoopGo, platformStep, platformCollides,
    jumpForceOf, stuckPinPhase, boostTimerPhase, flyTimerPhase, shootTimerPhase,
    boostPhase, boostLoopGo, inputMovePhase, flightPhase, flyTogglePhase, shootPhase,
    gravityPhase, bulletPhase, bulletLoopGo, cloudMovePhase, birdMovePhase, birdLoopGo,
    birdStep, birdOverlapsPlayer, cameraScrollPhase, fallCheckPhase, highPoint,
    stuckGame, noInput, oneRng, mkNormalPlat, birdSpeedMinFor, birdSpeedMaxFor,
    progressFactor, WeatherClear, WeatherRain, WeatherSnow, RaindropCount,
    SnowflakeCount, BoostNone, BoostShield, BoostJump, BoostSpeed,
    PlatformSticky, PlatformNormal, PlatformDisappearing, PlatformIntact,
    PlatformBreaking, PlatformBroken, ScreenWidth, ScreenHeight, PlayerWidth,
    PlayerHeight, PlatformWidth, PlatformHeight, BirdWidth, BirdHeight, Gravity,
    JumpVelocity, RngCount.nextF, RngCount.nextI, Rng.intn, defaultPlatform, defaultBird]

/-! ### Claim theorem C1: the platform recycle operation -/

theorem platformTypeFromRoll_spec (q : ℚ) :
    (platformTypeFromRoll q = PlatformSticky ↔ q < 2/10) ∧
      (platformTypeFromRoll q = PlatformDisappearing ↔ 2/10 ≤ q ∧ q < 35/100) ∧
      (platformTypeFromRoll q = PlatformNormal ↔ 35/100 ≤ q) := by
  unfold platformTypeFromRoll
  split_ifs with h1 h2
  · exact ⟨iff_of_true rfl h1,
      iff_of_false (by decide) (fun hq => absurd h1 (not_lt.mpr hq.1)),
      iff_of_false (by decide) (fun hq => absurd h1 (not_lt.mpr (by linarith)))⟩
  · exact ⟨iff_of_false (by decide) h1,
      iff_of_true rfl ⟨le_of_not_lt h1, h2⟩,
      iff_of_false (by decide) (not_le.mpr h2)⟩
  · exact ⟨iff_of_false (by decide) h1,
      iff_of_false (by decide) (fun hq => h2 hq.2),
      iff_of_true rfl (le_of_not_lt h2)⟩

/-- C1: recycling a platform that scrolled past the viewport bottom
repositions it to Y = 0, re-randomizes X uniformly in
[0, ScreenWidth − PlatformWidth), resets the animation state to Intact,
re-randomizes the type with the roll thresholds giving Sticky 20%,
Disappearing 15% and Normal 65%, increments the score by exactly one,
and spawns one boost 2·PlatformHeight above the platform exactly when the
spawn roll is below BoostSpawnChance = 0.15, with the boost type drawn
uniformly among the three types 1..3. -/
theorem claim_platform_recycle (r : Rng) (p : Platform) (s : ScrollState) (c : RngCount)
    (hst : p.ptype = PlatformDisappearing ∨ p.state = PlatformIntact) :
    (recyclePlatform r p s c).1.y = 0 ∧
    (recyclePlatform r p s c).1.x =
      r.floats c.fi * ((ScreenWidth - PlatformWidth : ℕ) : ℚ) ∧
    (0 ≤ r.floats c.fi → r.floats c.fi < 1 →
      0 ≤ (recyclePlatform r p s c).1.x ∧
        (recyclePlatform r p s c).1.x < ((ScreenWidth - PlatformWidth : ℕ) : ℚ)) ∧
    (recyclePlatform r p s c).1.state = PlatformIntact ∧
    (recyclePlatform r p s c).1.ptype = platformTypeFromRoll (r.floats c.nextF.fi) ∧
    (∀ q : ℚ, (platformTypeFromRoll q = PlatformSticky ↔ q < 2/10) ∧
      (platformTypeFromRoll q = PlatformDisappearing ↔ 2/10 ≤ q ∧ q < 35/100) ∧
      (platformTypeFromRoll q = PlatformNormal ↔ 35/100 ≤ q)) ∧
    (recyclePlatform r p s c).2.1.score = s.score + 1 ∧
    ((recyclePlatform r p s c).2.1.boosts =
      if r.floats (difficultyStep r { s with score := s.score + 1 } c.nextF.nextF).2.fi <
          BoostSpawnChance then
        (difficultyStep r { s with score := s.score + 1 } c.nextF.nextF).1.boosts ++
          [⟨(recyclePlatform r p s c).1.x + ((PlatformWidth / 4 : ℕ) : ℚ),
            0 - ((PlatformHeight * 2 : ℕ) : ℚ),
            r.ints (difficultyStep r { s with score := s.score + 1 } c.nextF.nextF).2.nextF.ii
              % 3 + 1, true⟩]
      else (difficultyStep r { s with score := s.score + 1 } c.nextF.nextF).1.boosts) ∧
    (∀ n : ℕ, 1 ≤ n % 3 + 1 ∧ n % 3 + 1 ≤ 3) := by
  have hx : (recyclePlatform r p s c).1.x =
      r.floats c.fi * ((ScreenWidth - PlatformWidth : ℕ) : ℚ) := by
    simp only [recyclePlatform]
    split_ifs <;> rfl
  have hscore := (difficultyStep_mono r { s with score := s.score + 1 } c.nextF.nextF).2.1
  refine ⟨?_, hx, ?_, ?_, ?_, platformTypeFromRoll_spec, ?_, ?_, ?_⟩
  · simp only [recyclePlatform]
    split_ifs <;> rfl
  · intro h0 h1
    rw [hx]
    have h260 : ((ScreenWidth - PlatformWidth : ℕ) : ℚ) = 260 := by
      norm_num [ScreenWidth, PlatformWidth]
    rw [h260]
    exact ⟨mul_nonneg h0 (by norm_num), by nlinarith⟩
  · rcases hst with hD | hI
    · simp only [recyclePlatform, hD]
      split_ifs <;> rfl
    · simp only [recyclePlatform]
      split_ifs <;> simp_all
  · simp only [recyclePlatform]
    split_ifs <;> rfl
  · simp only [recyclePlatform]
    split_ifs <;> exact hscore
  · simp only [recyclePlatform]
    split_ifs <;> rfl
  · intro n
    omega

/-- Witness for C1: a concrete disappearing platform recycled under the
all-zero random source (which spawns a boost of type 1). -/
theorem claim_platform_recycle_witness :
    (breakingPlat.ptype = PlatformDisappearing ∨ breakingPlat.state = PlatformIntact) ∧
    ((recyclePlatform zeroRng breakingPlat recycleS ⟨0, 0⟩).1.y = 0 ∧
    (recyclePlatform zeroRng breakingPlat recycleS ⟨0, 0⟩).1.x =
      zeroRng.floats (RngCount.mk 0 0).fi * ((ScreenWidth - PlatformWidth : ℕ) : ℚ) ∧
    (0 ≤ zeroRng.floats (RngCount.mk 0 0).fi → zeroRng.floats (RngCount.mk 0 0).fi < 1 →
      0 ≤ (recyclePlatform zeroRng breakingPlat recycleS ⟨0, 0⟩).1.x ∧
        (recyclePlatform zeroRng breakingPlat recycleS ⟨0, 0⟩).1.x <
          ((ScreenWidth - PlatformWidth : ℕ) : ℚ)) ∧
    (recyclePlatform zeroRng breakingPlat recycleS ⟨0, 0⟩).1.state = PlatformIntact ∧
    (recyclePlatform zeroRng breakingPlat recycleS ⟨0, 0⟩).1.ptype =
      platformTypeFromRoll (zeroRng.floats (RngCount.mk 0 0).nextF.fi) ∧
    (∀ q : ℚ, (platformTypeFromRoll q = PlatformSticky ↔ q < 2/10) ∧
      (platformTypeFromRoll q = PlatformDisappearing ↔ 2/10 ≤ q ∧ q < 35/100) ∧
      (platformTypeFromRoll q = PlatformNormal ↔ 35/100 ≤ q)) ∧
    (recyclePlatform zeroRng breakingPlat recycleS ⟨0, 0⟩).2.1.score = recycleS.score + 1 ∧
    ((recyclePlatform zeroRng breakingPlat recycleS ⟨0, 0⟩).2.1.boosts =
      if zeroRng.floats (difficultyStep zeroRng
            { recycleS with score := recycleS.score + 1 }
            (RngCount.mk 0 0).nextF.nextF).2.fi < BoostSpawnChance then
        (difficultyStep zeroRng { recycleS with score := recycleS.score + 1 }
            (RngCount.mk 0 0).nextF.nextF).1.boosts ++
          [⟨(recyclePlatform zeroRng breakingPlat recycleS ⟨0, 0⟩).1.x +
              ((PlatformWidth / 4 : ℕ) : ℚ),
            0 - ((PlatformHeight * 2 : ℕ) : ℚ),
            zeroRng.ints (difficultyStep zeroRng
                { recycleS with score := recycleS.score + 1 }
                (RngCount.mk 0 0).nextF.nextF).2.nextF.ii % 3 + 1, true⟩]
      else (difficultyStep zeroRng { recycleS with score := recycleS.score + 1 }
        (RngCount.mk 0 0).nextF.nextF).1.boosts) ∧
    (∀ n : ℕ, 1 ≤ n % 3 + 1 ∧ n % 3 + 1 ≤ 3)) :=
  ⟨Or.inl rfl,
    claim_platform_recycle zeroRng breakingPlat recycleS ⟨0, 0⟩ (Or.inl rfl)⟩

/-! ### Claim theorem C4: the disappearing-platform lifecycle -/

theorem platformStep_broken (i : ℕ) (st : PlatLoopState) (p : Platform)
    (hD : p.ptype = PlatformDisappearing) (hB : p.state = PlatformBroken) :
    platformStep i st p = (p, st) := by
  simp only [platformStep]
  split_ifs <;>
    simp_all [PlatformNormal, PlatformSticky, PlatformDisappearing,
      PlatformIntact, PlatformBreaking, PlatformBroken]

theorem platformStep_breaking (i : ℕ) (st : PlatLoopState) (p : Platform)
    (hD : p.ptype = PlatformDisappearing) (hB : p.state = PlatformBreaking) :
    (platformStep i st p).1.ptype = p.ptype ∧
      (platformStep i st p).1.breakTimer = p.breakTimer - 1/60 ∧
      (p.breakTimer - 1/60 ≤ 0 → (platformStep i st p).1.state = PlatformBroken) ∧
      (¬(p.breakTimer - 1/60 ≤ 0) → (platformStep i st p).1.state = PlatformBreaking) := by
  simp only [platformStep]
  split_ifs <;>
    simp_all [PlatformNormal, PlatformSticky, PlatformDisappearing,
      PlatformIntact, PlatformBreaking, PlatformBroken]

theorem platformStep_intact_hit (i : ℕ) (st : PlatLoopState) (p : Platform)
    (hD : p.ptype = PlatformDisappearing) (hI : p.state = PlatformIntact)
    (hc : platformCollides st.player p) :
    (platformStep i st p).1.state = PlatformBreaking ∧
      (platformStep i st p).1.breakTimer = 3/10 ∧
      (platformStep i st p).1.ptype = p.ptype ∧
      (platformStep i st p).2.player.velocityY = jumpForceOf st.player.boostType ∧
      (platformStep i st p).2.stuck = st.stuck := by
  simp only [platformStep]
  split_ifs <;>
    simp_all [PlatformNormal, PlatformSticky, PlatformDisappearing,
      PlatformIntact, PlatformBreaking, PlatformBroken]

theorem platformTicks_breaking (sts : ℕ → PlatLoopState) (idxs : ℕ → ℕ) (p : Platform)
    (hD : p.ptype = PlatformDisappearing) (hB : p.state = PlatformBreaking)
    (hT : p.breakTimer = 3/10) :
    ∀ k : ℕ,
      (platformTicks sts idxs k p).ptype = PlatformDisappearing ∧
      (k < 18 → (platformTicks sts idxs k p).state = PlatformBreaking ∧
        (platformTicks sts idxs k p).breakTimer = 3/10 - k * (1/60)) ∧
      (18 ≤ k → (platformTicks sts idxs k p).state = PlatformBroken) := by
  intro k
  induction k with
  | zero =>
    exact ⟨hD, fun _ => ⟨hB, by simp only [platformTicks]; rw [hT]; norm_num⟩,
      fun h => absurd h (by norm_num)⟩
  | succ k ih =>
    obtain ⟨ihD, ihBr, ihBo⟩ := ih
    by_cases hk : k < 18
    · obtain ⟨hs, ht⟩ := ihBr hk
      obtain ⟨b1, b2, b3, b4⟩ := platformStep_breaking (idxs k) (sts k) _ ihD hs
      by_cases hk17 : k < 17
      · have htpos : ¬((platformTicks sts idxs k p).breakTimer - 1/60 ≤ 0) := by
          rw [ht]
          have hq : (k : ℚ) ≤ 16 := by exact_mod_cast Nat.lt_succ_iff.mp hk17
          push_neg
          linarith
        refine ⟨?_, fun _ => ⟨?_, ?_⟩, fun h => absurd h (by omega)⟩
        · simp only [platformTicks]
          rw [b1]
          exact ihD
        · simp only [platformTicks]
          exact b4 htpos
        · simp only [platformTicks]
          rw [b2, ht]
          push_cast
          ring
      · have hk17e : k = 17 := by omega
        have htneg : (platformTicks sts idxs k p).breakTimer - 1/60 ≤ 0 := by
          rw [ht, hk17e]
          norm_num
        refine ⟨?_, fun h => absurd h (by omega), fun _ => ?_⟩
        · simp only [platformTicks]
          rw [b1]
          exact ihD
        · simp only [platformTicks]
          exact b3 htneg
    · have hbro := ihBo (by omega)
      have hstep := platformStep_broken (idxs k) (sts k) _ ihD hbro
      refine ⟨?_, fun h => absurd h (by omega), fun _ => ?_⟩
      · simp only [platformTicks, hstep]
        exact ihD
      · simp only [platformTicks, hstep]
        exact hbro

/-- C4 (amended): first contact with an Intact disappearing platform starts
Breaking with a 0.3 s timer and applies one jump impulse; the platform then
reaches Broken exactly 18 ticks (0.3 s at 60 Hz) after first contact purely
by the per-tick timer decrement, regardless of the player states and
collisions seen during that window, and once Broken it yields no collision
at all; however, while still Breaking the platform does keep bouncing a
falling player (the Normal-platform branch), so it is not limited to a
single bounce. -/
theorem claim_disappearing_lifecycle_amended :
    (∀ (i : ℕ) (st : PlatLoopState) (p : Platform),
      p.ptype = PlatformDisappearing → p.state = PlatformIntact →
      platformCollides st.player p →
      (platformStep i st p).1.state = PlatformBreaking ∧
      (platformStep i st p).1.breakTimer = 3/10 ∧
      (platformStep i st p).2.player.velocityY = jumpForceOf st.player.boostType) ∧
    (∀ (sts : ℕ → PlatLoopState) (idxs : ℕ → ℕ) (p : Platform),
      p.ptype = PlatformDisappearing → p.state = PlatformBreaking →
      p.breakTimer = 3/10 → ∀ k : ℕ,
        (k < 18 → (platformTicks sts idxs k p).state = PlatformBreaking) ∧
        (18 ≤ k → (platformTicks sts idxs k p).state = PlatformBroken)) ∧
    (∀ (i : ℕ) (st : PlatLoopState) (p : Platform),
      p.ptype = PlatformDisappearing → p.state = PlatformBroken →
      platformStep i st p = (p, st)) := by
  refine ⟨?_, ?_, ?_⟩
  · intro i st p hD hI hc
    obtain ⟨h1, h2, h3, h4, h5⟩ := platformStep_intact_hit i st p hD hI hc
    exact ⟨h1, h2, h4⟩
  · intro sts idxs p hD hB hT k
    obtain ⟨h1, h2, h3⟩ := platformTicks_breaking sts idxs p hD hB hT k
    exact ⟨fun hk => (h2 hk).1, h3⟩
  · intro i st p hD hB
    exact platformStep_broken i st p hD hB

/-- Witness for C4's amended theorem: first contact, the 18-tick expiry,
and broken pass-through, all on concrete platforms under the falling player. -/
theorem claim_disappearing_lifecycle_witness :
    (intactDisPlat.ptype = PlatformDisappearing ∧ intactDisPlat.state = PlatformIntact ∧
      platformCollides fallSt.player intactDisPlat) ∧
    ((platformStep 0 fallSt intactDisPlat).1.state = PlatformBreaking ∧
      (platformStep 0 fallSt intactDisPlat).1.breakTimer = 3/10 ∧
      (platformStep 0 fallSt intactDisPlat).2.player.velocityY =
        jumpForceOf fallSt.player.boostType) ∧
    (freshBreakingPlat.ptype = PlatformDisappearing ∧
      freshBreakingPlat.state = PlatformBreaking ∧ freshBreakingPlat.breakTimer = 3/10) ∧
    ((17 < 18 → (platformTicks stConst idxConst 17 freshBreakingPlat).state =
        PlatformBreaking) ∧
      (18 ≤ 18 → (platformTicks stConst idxConst 18 freshBreakingPlat).state =
        PlatformBroken)) ∧
    (brokenDisPlat.ptype = PlatformDisappearing ∧ brokenDisPlat.state = PlatformBroken) ∧
    platformStep 0 fallSt brokenDisPlat = (brokenDisPlat, fallSt) := by
  have hcol : platformCollides fallSt.player intactDisPlat := by
    norm_num [platformCollides, fallSt, fallingPlayer, intactDisPlat,
      PlayerWidth, PlayerHeight, PlatformWidth, PlatformHeight]
  refine ⟨⟨rfl, rfl, hcol⟩, ?_, ⟨rfl, rfl, rfl⟩, ?_, ⟨rfl, rfl⟩, ?_⟩
  · exact claim_disappearing_lifecycle_amended.1 0 fallSt intactDisPlat rfl rfl hcol
  · exact claim_disappearing_lifecycle_amended.2.1 stConst idxConst freshBreakingPlat
      rfl rfl rfl 17 |>.imp id (fun h h18 => by
        have := claim_disappearing_lifecycle_amended.2.1 stConst idxConst
          freshBreakingPlat rfl rfl rfl 18
        exact this.2 h18)
  · exact claim_disappearing_lifecycle_amended.2.2 0 fallSt brokenDisPlat rfl rfl

/-- C4 counterexample: "usable for exactly one bounce" is false — a falling
player touching a Disappearing platform that is still Breaking (timer 0.2s,
not yet Broken) receives a full jump impulse from the collision resolution. -/
theorem claim_disappearing_lifecycle_counterexample :
    breakingPlat.ptype = PlatformDisappearing ∧
    breakingPlat.state = PlatformBreaking ∧
    (platformStep 0 fallSt breakingPlat).1.state = PlatformBreaking ∧
    (platformStep 0 fallSt breakingPlat).2.player.velocityY = JumpVelocity := by
  norm_num [platformStep, platformCollides, breakingPlat, fallSt, fallingPlayer,
    jumpForceOf, BoostNone, BoostJump, PlatformNormal, PlatformSticky,
    PlatformDisappearing, PlatformIntact, PlatformBreaking, PlatformBroken,
    PlayerWidth, PlayerHeight, PlatformWidth, PlatformHeight, JumpVelocity]

/-! ### Claim theorem C5: the normal-platform bounce -/

theorem platformStep_nonpos (i : ℕ) (st : PlatLoopState) (p : Platform)
    (h : st.player.velocityY ≤ 0) : (platformStep i st p).2 = st := by
  simp only [platformStep]
  rw [if_neg (fun hq : platformCollides _ _ => absurd hq.2.2.2.2 (not_lt.mpr h))]

theorem platformLoopGo_nonpos :
    ∀ (ps : List Platform) (i : ℕ) (st : PlatLoopState),
      st.player.velocityY ≤ 0 → (platformLoopGo i st ps).2 = st := by
  intro ps
  induction ps with
  | nil => intro i st h; rfl
  | cons p rest ih =>
    intro i st h
    simp only [platformLoopGo]
    rw [platformStep_nonpos i st p h]
    exact ih (i+1) st h

theorem platformStep_normal_hit (i : ℕ) (st : PlatLoopState) (p : Platform)
    (hn : p.ptype = PlatformNormal) (hc : platformCollides st.player p) :
    (platformStep i st p).2 =
      { st with player :=
        { st.player with velocityY := jumpForceOf st.player.boostType } } := by
  simp only [platformStep]
  split_ifs <;>
    simp_all [PlatformNormal, PlatformSticky, PlatformDisappearing,
      PlatformIntact, PlatformBreaking, PlatformBroken]

theorem platformStep_snd (i : ℕ) (st : PlatLoopState) (p : Platform) :
    (platformStep i st p).2 = st ∨
      (platformCollides st.player p ∧
        (p.ptype = PlatformSticky ∨ (platformStep i st p).2 =
          { st with player :=
            { st.player with velocityY := jumpForceOf st.player.boostType } })) := by
  simp only [platformStep]
  split_ifs
  all_goals try exact Or.inl rfl
  all_goals refine Or.inr ⟨by assumption, ?_⟩
  all_goals first
    | (apply Or.inl; assumption)
    | exact Or.inr rfl

theorem platformLoop_normal_bounce :
    ∀ (pre : List Platform) (i : ℕ) (st : PlatLoopState) (p : Platform)
      (post : List Platform),
      st.player.boostType = BoostNone → st.stuck = none →
      platformCollides st.player p → p.ptype = PlatformNormal →
      (∀ q ∈ pre, q.ptype = PlatformSticky → ¬ platformCollides st.player q) →
      (platformLoopGo i st (pre ++ p :: post)).2.player.velocityY = JumpVelocity ∧
        (platformLoopGo i st (pre ++ p :: post)).2.stuck = none := by
  have hj : ∀ st : PlatLoopState, st.player.boostType = BoostNone →
      jumpForceOf st.player.boostType = JumpVelocity := by
    intro st hb
    rw [hb]
    norm_num [jumpForceOf, BoostNone, BoostJump]
  intro pre
  induction pre with
  | nil =>
    intro i st p post hb hst hc hn hpre
    simp only [List.nil_append, platformLoopGo]
    rw [platformStep_normal_hit i st p hn hc]
    rw [platformLoopGo_nonpos post (i+1) _
      (by dsimp; rw [hj st hb]; norm_num [JumpVelocity])]
    exact ⟨hj st hb, hst⟩
  | cons q pre ih =>
    intro i st p post hb hst hc hn hpre
    simp only [List.cons_append, platformLoopGo]
    rcases platformStep_snd i st q with he | ⟨hcol, hsub⟩
    · rw [he]
      exact ih (i+1) st p post hb hst hc hn
        (fun q2 hq2 => hpre q2 (List.mem_cons_of_mem _ hq2))
    · rcases hsub with hsticky | hbounce
      · exact absurd hcol (hpre q (List.mem_cons_self q pre) hsticky)
      · rw [hbounce]
        rw [platformLoopGo_nonpos _ (i+1) _
          (by dsimp; rw [hj st hb]; norm_num [JumpVelocity])]
        exact ⟨hj st hb, hst⟩

/-- C5: a falling (velocityY > 0) player with no active boost and no stuck
reference that overlaps a Normal platform (and does not overlap any sticky
platform earlier in the pool) leaves that tick's platform collision
resolution — the platform loop followed by the stuck pin — with velocityY
exactly JumpVelocity = −7. -/
theorem claim_normal_bounce (g : Game) (pre post : List Platform) (p : Platform)
    (hps : g.platforms = pre ++ p :: post)
    (hb : g.player.boostType = BoostNone)
    (hst : g.stuckToPlatform = none)
    (hn : p.ptype = PlatformNormal)
    (hc : platformCollides g.player p)
    (hpre : ∀ q ∈ pre, q.ptype = PlatformSticky → ¬ platformCollides g.player q) :
    (stuckPinPhase (platformPhase g)).player.velocityY = JumpVelocity := by
  obtain ⟨hv, hs⟩ := platformLoop_normal_bounce pre 0
    ⟨g.player, g.stuckToPlatform, g.stuckTimer, g.canJumpRelease⟩ p post hb hst hc hn hpre
  have hstuck : (platformPhase g).stuckToPlatform = none := by
    simp only [platformPhase, hps]
    exact hs
  simp only [stuckPinPhase, hstuck]
  simp only [platformPhase, hps]
  exact hv

/-- Witness for C5: the concrete bounce state. -/
theorem claim_normal_bounce_witness :
    bounceGame.platforms = [] ++ mkNormalPlat 100 300 :: [] ∧
    bounceGame.player.boostType = BoostNone ∧
    bounceGame.stuckToPlatform = none ∧
    (mkNormalPlat 100 300).ptype = PlatformNormal ∧
    platformCollides bounceGame.player (mkNormalPlat 100 300) ∧
    (stuckPinPhase (platformPhase bounceGame)).player.velocityY = JumpVelocity := by
  have hc : platformCollides bounceGame.player (mkNormalPlat 100 300) := by
    norm_num [platformCollides, bounceGame, mkNormalPlat, PlayerWidth, PlayerHeight,
      PlatformWidth, PlatformHeight]
  exact ⟨rfl, rfl, rfl, rfl, hc,
    claim_normal_bounce bounceGame [] [] (mkNormalPlat 100 300) rfl rfl rfl rfl hc
      (fun q hq => absurd hq (List.not_mem_nil q))⟩

/-- Witness for C7 at the fresh session and at difficulty levels 3 ≤ 5. -/
theorem claim_birdspeed_range_witness :
    Reachable (newGame oneRng ⟨0, 0⟩).1 ∧
    ((newGame oneRng ⟨0, 0⟩).1.birdSpeedMin =
        birdSpeedMinFor (newGame oneRng ⟨0, 0⟩).1.difficulty ∧
      (newGame oneRng ⟨0, 0⟩).1.birdSpeedMax =
        birdSpeedMaxFor (newGame oneRng ⟨0, 0⟩).1.difficulty ∧
      InitialBirdSpeedMin ≤ (newGame oneRng ⟨0, 0⟩).1.birdSpeedMin ∧
      (newGame oneRng ⟨0, 0⟩).1.birdSpeedMax ≤ MaxBirdSpeedMax) ∧
    (3 : ℕ) ≤ 5 ∧
    (birdSpeedMinFor 3 ≤ birdSpeedMinFor 5 ∧ birdSpeedMaxFor 3 ≤ birdSpeedMaxFor 5) :=
  ⟨Reachable.init oneRng ⟨0, 0⟩,
    claim_birdspeed_range.1 _ (Reachable.init oneRng ⟨0, 0⟩),
    by norm_num,
    claim_birdspeed_range.2 3 5 (by norm_num)⟩

/-! ### C8: weather particles -/

/-- Any weather change in the toggle/timer pair — manual cycle or timer
expiry — leaves the particle list empty; otherwise weather and particles
are untouched. -/
theorem weatherPhases_change_clears (inp : Input) (r : Rng) (g : Game) (c : RngCount) :
    ((weatherTimerPhase r (weatherTogglePhase inp g) c).1.weather = g.weather ∧
      (weatherTimerPhase r (weatherTogglePhase inp g) c).1.particles = g.particles) ∨
    (weatherTimerPhase r (weatherTogglePhase inp g) c).1.particles = [] := by
  simp only [weatherTogglePhase, weatherTimerPhase]
  split_ifs <;> first | exact Or.inr rfl | exact Or.inl ⟨rfl, rfl⟩

/-- Per-tick spawn characterization: at most one particle is appended, and
only in Rain below 50 with a sub-0.3 roll or in Snow below 40 with a
sub-0.2 roll. -/
theorem particleSpawn_spec (r : Rng) (g : Game) (c : RngCount) :
    (particleSpawnPhase r g c).1.particles = g.particles ∨
    ∃ q, (particleSpawnPhase r g c).1.particles = g.particles ++ [q] ∧
      ((g.weather = WeatherRain ∧ g.particles.length < RaindropCount ∧
          r.floats c.fi < 3/10) ∨
        (g.weather = WeatherSnow ∧ g.particles.length < SnowflakeCount ∧
          r.floats c.fi < 2/10)) := by
  simp only [particleSpawnPhase]
  split_ifs with hw1 hl1 hf1 hw2 hl2 hf2
  · exact Or.inr ⟨_, rfl, Or.inl ⟨hw1, hl1, hf1⟩⟩
  · exact Or.inl rfl
  · exact Or.inl rfl
  · exact Or.inr ⟨_, rfl, Or.inr ⟨hw2, hl2, hf2⟩⟩
  · exact Or.inl rfl
  · exact Or.inl rfl
  · exact Or.inl rfl

/-- The spawn phase preserves the particle-cap invariant. -/
theorem weatherInv_particleSpawn (r : Rng) (g : Game) (c : RngCount)
    (h : WeatherInv g) : WeatherInv (particleSpawnPhase r g c).1 := by
  simp only [particleSpawnPhase]
  split_ifs with hw1 hl1 hf1 hw2 hl2 hf2
  · refine ⟨fun _ => ?_, fun hw => ?_⟩
    · dsimp only
      rw [List.length_append]
      have h1 := hl1
      simp only [List.length_singleton]
      omega
    · dsimp only at hw
      rw [hw1] at hw
      exact absurd hw (by decide)
  · exact h
  · exact h
  · refine ⟨fun hw => ?_, fun _ => ?_⟩
    · dsimp only at hw
      exact absurd hw hw1
    · dsimp only
      rw [List.length_append]
      have h1 := hl2
      simp only [List.length_singleton]
      omega
  · exact h
  · exact h
  · exact h

/-- The particle move loop never lengthens the list. -/
theorem particleMoveLoop_length_le :
    ∀ (fuel : ℕ) (ps : List Particle) (i : ℕ),
      (particleMoveLoop fuel ps i).length ≤ ps.length := by
  intro fuel
  induction fuel with
  | zero => intro ps i; exact le_rfl
  | succ n ih =>
    intro ps i
    simp only [particleMoveLoop]
    split
    · split
      · exact le_trans (ih _ _) (le_trans (swapRemoveAt_length_le _ _) (by simp))
      · exact le_trans (ih _ _) (by simp)
    · exact le_rfl

/-- The particle move phase preserves the particle-cap invariant. -/
theorem weatherInv_particleMove (g : Game) (h : WeatherInv g) :
    WeatherInv (particleMovePhase g) := by
  refine ⟨fun hw => ?_, fun hw => ?_⟩
  · exact le_trans (particleMoveLoop_length_le _ _ _) (h.1 hw)
  · exact le_trans (particleMoveLoop_length_le _ _ _) (h.2 hw)

/-- The whole weather section preserves the particle-cap invariant. -/
theorem weatherInv_weatherSection (inp : Input) (r : Rng) (g : Game) (c : RngCount)
    (h : WeatherInv g) : WeatherInv (weatherSection inp r g c).1 := by
  have hg : WeatherInv { g with gameTime := g.gameTime + 1/60 } := ⟨h.1, h.2⟩
  have h1 : WeatherInv (weatherTimerPhase r
      (weatherTogglePhase inp { g with gameTime := g.gameTime + 1/60 }) c).1 := by
    rcases weatherPhases_change_clears inp r { g with gameTime := g.gameTime + 1/60 } c with
      ⟨hw, hp⟩ | hp
    · refine ⟨fun hr => ?_, fun hs => ?_⟩
      · rw [hw] at hr
        rw [hp]
        exact hg.1 hr
      · rw [hw] at hs
        rw [hp]
        exact hg.2 hs
    · refine ⟨fun _ => ?_, fun _ => ?_⟩ <;> rw [hp] <;> simp
  simp only [weatherSection]
  exact weatherInv_particleMove _ (weatherInv_particleSpawn _ _ _ h1)

/-- A fresh session satisfies the particle-cap invariant (no particles). -/
theorem weatherInv_newGame (r : Rng) (c : RngCount) : WeatherInv (newGame r c).1 := by
  refine ⟨fun hw => ?_, fun hw => ?_⟩ <;>
    simp [newGame, WeatherClear, WeatherRain, WeatherSnow] at hw

/-- One full Update tick preserves the particle-cap invariant. -/
theorem weatherInv_update (inp : Input) (r : Rng) (c : RngCount) (g : Game)
    (h : WeatherInv g) : WeatherInv (update inp r g c).1 := by
  unfold update
  split_ifs with h1 h2
  · exact weatherInv_newGame r c
  · exact h
  · have hws : weatherState (updateRun inp r g c).1 =
        weatherState (weatherSection inp r g c).1 := by
      simp [updateRun, preScrollUpdate]
    have hwe : (updateRun inp r g c).1.weather =
        (weatherSection inp r g c).1.weather := congrArg Prod.fst hws
    have hpa : (updateRun inp r g c).1.particles =
        (weatherSection inp r g c).1.particles := congrArg Prod.snd hws
    have hsec := weatherInv_weatherSection inp r g c h
    refine ⟨fun hr => ?_, fun hs => ?_⟩
    · rw [hwe] at hr
      rw [hpa]
      exact hsec.1 hr
    · rw [hwe] at hs
      rw [hpa]
      exact hsec.2 hs

/-- C8: per tick at most one particle is spawned, only in Rain with a
sub-0.3 roll below the 50 cap or in Snow with a sub-0.2 roll below the
40 cap; every reachable state keeps the particle count at or below the
cap of the active weather; and any weather change (manual cycle or timer
expiry) immediately clears all live particles. -/
theorem claim_weather_particles :
    (∀ g : Game, Reachable g → WeatherInv g) ∧
    (∀ (r : Rng) (g : Game) (c : RngCount),
      (particleSpawnPhase r g c).1.particles = g.particles ∨
      ∃ q, (particleSpawnPhase r g c).1.particles = g.particles ++ [q] ∧
        ((g.weather = WeatherRain ∧ g.particles.length < RaindropCount ∧
            r.floats c.fi < 3/10) ∨
          (g.weather = WeatherSnow ∧ g.particles.length < SnowflakeCount ∧
            r.floats c.fi < 2/10))) ∧
    (∀ (inp : Input) (r : Rng) (g : Game) (c : RngCount),
      ((weatherTimerPhase r (weatherTogglePhase inp g) c).1.weather = g.weather ∧
        (weatherTimerPhase r (weatherTogglePhase inp g) c).1.particles = g.particles) ∨
      (weatherTimerPhase r (weatherTogglePhase inp g) c).1.particles = []) := by
  refine ⟨?_, particleSpawn_spec, weatherPhases_change_clears⟩
  intro g hg
  induction hg with
  | init r c => exact weatherInv_newGame r c
  | step inp r c g hg ih => exact weatherInv_update inp r c g ih

/-- Witness for C8 at the fresh session and the concrete stuck state. -/
theorem claim_weather_particles_witness :
    Reachable (newGame zeroRng ⟨0, 0⟩).1 ∧
    WeatherInv (newGame zeroRng ⟨0, 0⟩).1 ∧
    ((particleSpawnPhase zeroRng stuckGame ⟨0, 0⟩).1.particles = stuckGame.particles ∨
      ∃ q, (particleSpawnPhase zeroRng stuckGame ⟨0, 0⟩).1.particles =
          stuckGame.particles ++ [q] ∧
        ((stuckGame.weather = WeatherRain ∧
            stuckGame.particles.length < RaindropCount ∧
            zeroRng.floats (0 : ℕ) < 3/10) ∨
          (stuckGame.weather = WeatherSnow ∧
            stuckGame.particles.length < SnowflakeCount ∧
            zeroRng.floats (0 : ℕ) < 2/10))) ∧
    (((weatherTimerPhase zeroRng (weatherTogglePhase wInput stuckGame) ⟨0, 0⟩).1.weather =
        stuckGame.weather ∧
      (weatherTimerPhase zeroRng (weatherTogglePhase wInput stuckGame) ⟨0, 0⟩).1.particles =
        stuckGame.particles) ∨
      (weatherTimerPhase zeroRng (weatherTogglePhase wInput stuckGame) ⟨0, 0⟩).1.particles =
        []) :=
  ⟨Reachable.init zeroRng ⟨0, 0⟩,
    claim_weather_particles.1 _ (Reachable.init zeroRng ⟨0, 0⟩),
    claim_weather_particles.2.1 zeroRng stuckGame ⟨0, 0⟩,
    claim_weather_particles.2.2 wInput zeroRng stuckGame ⟨0, 0⟩⟩

/-! ### C10: boost persistence -/

/-- Setting an index back to its own value changes nothing. -/
theorem set_get_self_eq {α : Type} (l : List α) (i : ℕ) (h : i < l.length) :
    l.set i (l.get ⟨i, h⟩) = l := by
  apply List.ext_getElem
  · simp
  · intro j h1 h2
    by_cases hij : i = j
    · subst hij
      rw [List.getElem_set_self, List.get_eq_getElem]
    · rw [List.getElem_set_ne hij]

/-- Membership survives overwriting a different slot. -/
theorem mem_set_of_ne {α : Type} {l : List α} {i : ℕ} {y b : α}
    (hb : b ∈ l) (hi : i < l.length) (hne : l.get ⟨i, hi⟩ ≠ b) :
    b ∈ l.set i y := by
  obtain ⟨j, hj, hgj⟩ := List.mem_iff_getElem.mp hb
  have hij : i ≠ j := by
    intro he
    subst he
    exact hne (by rw [List.get_eq_getElem]; exact hgj)
  have hj2 : j < (l.set i y).length := by rw [List.length_set]; exact hj
  refine List.mem_iff_getElem.mpr ⟨j, hj2, ?_⟩
  rw [List.getElem_set_ne hij]
  exact hgj

/-- Membership survives a swap-remove of a different element. -/
theorem mem_swapRemoveAt {α : Type} {l : List α} {i : ℕ} {b : α}
    (hb : b ∈ l) (hi : i < l.length) (hne : l.get ⟨i, hi⟩ ≠ b) :
    b ∈ swapRemoveAt l i := by
  have hnil : l ≠ [] := List.ne_nil_of_length_pos (by omega)
  unfold swapRemoveAt
  rw [List.getLast?_eq_getLast l hnil]
  obtain ⟨j, hj, hgj⟩ := List.mem_iff_getElem.mp hb
  have hij : i ≠ j := by
    intro he
    subst he
    exact hne (by rw [List.get_eq_getElem]; exact hgj)
  by_cases hlast : j = l.length - 1
  · have hi2 : i < ((l.set i (l.getLast hnil)).dropLast).length := by
      simp only [List.length_dropLast, List.length_set]
      omega
    refine List.mem_iff_getElem.mpr ⟨i, hi2, ?_⟩
    rw [List.getElem_dropLast, List.getElem_set_self, List.getLast_eq_getElem]
    subst hlast
    exact hgj
  · have hj2 : j < ((l.set i (l.getLast hnil)).dropLast).length := by
      simp only [List.length_dropLast, List.length_set]
      omega
    refine List.mem_iff_getElem.mpr ⟨j, hj2, ?_⟩
    rw [List.getElem_dropLast, List.getElem_set_ne hij]
    exact hgj

/-- Every survivor of a swap-remove after an overwrite of the removed slot
was already in the original list. -/
theorem mem_of_mem_swapRemoveAt_set {α : Type} {l : List α} {i : ℕ} {y x : α}
    (hi : i < l.length) (hx : x ∈ swapRemoveAt (l.set i y) i) : x ∈ l := by
  have hnil : l.set i y ≠ [] := by
    apply List.ne_nil_of_length_pos
    rw [List.length_set]
    omega
  unfold swapRemoveAt at hx
  rw [List.getLast?_eq_getLast _ hnil] at hx
  obtain ⟨k, hk, hgk⟩ := List.mem_iff_getElem.mp hx
  have hk2 : k < l.length - 1 := by
    simpa only [List.length_dropLast, List.length_set] using hk
  rw [List.getElem_dropLast] at hgk
  by_cases hki : k = i
  · subst hki
    rw [List.getElem_set_self, List.getLast_eq_getElem] at hgk
    rw [List.getElem_set_ne (by simp only [List.length_set]; omega)] at hgk
    rw [← hgk]
    exact List.getElem_mem _
  · rw [List.getElem_set_ne (fun he => hki he.symm),
      List.getElem_set_ne (fun he => hki he.symm)] at hgk
    rw [← hgk]
    exact List.getElem_mem _

/-- Positions before the removed slot are untouched by the swap-remove. -/
theorem swapRemoveAt_set_getElem_lt {α : Type} {l : List α} {i j : ℕ} {y : α}
    (hi : i < l.length) (hj : j < i)
    (hjl : j < (swapRemoveAt (l.set i y) i).length) :
    (swapRemoveAt (l.set i y) i).get ⟨j, hjl⟩ = l.get ⟨j, Nat.lt_trans hj hi⟩ := by
  have hnil : l.set i y ≠ [] := by
    apply List.ne_nil_of_length_pos
    rw [List.length_set]
    omega
  have hrw : swapRemoveAt (l.set i y) i =
      ((l.set i y).set i ((l.set i y).getLast hnil)).dropLast := by
    unfold swapRemoveAt
    rw [List.getLast?_eq_getLast _ hnil]
  rw [List.get_eq_getElem, List.get_eq_getElem, List.getElem_of_eq hrw]
  rw [List.getElem_dropLast, List.getElem_set_ne (by omega : i ≠ j),
    List.getElem_set_ne (by omega : i ≠ j)]

/-- Exact length of a swap-remove on a non-empty list. -/
theorem swapRemoveAt_length_eq {α : Type} (l : List α) (i : ℕ) (h : l ≠ []) :
    (swapRemoveAt l i).length = l.length - 1 := by
  unfold swapRemoveAt
  rw [List.getLast?_eq_getLast l h]
  simp only [List.length_dropLast, List.length_set]

/-- Boost overlap only reads the player position. -/
theorem boostOverlap_congr (q pl : Player) (b : Boost)
    (hx : q.x = pl.x) (hy : q.y = pl.y) :
    boostOverlap q b ↔ boostOverlap pl b := by
  unfold boostOverlap
  rw [hx, hy]

/-- An active boost the player never touches survives the pickup loop. -/
theorem boostLoopGo_keep :
    ∀ (fuel : ℕ) (pl : Player) (bs : List Boost) (i : ℕ) (b : Boost),
      b ∈ bs → b.active = true → ¬ boostOverlap pl b →
      b ∈ (boostLoopGo fuel pl bs i).2 := by
  intro fuel
  induction fuel with
  | zero =>
    intro pl bs i b hb _ _
    exact hb
  | succ n ih =>
    intro pl bs i b hb hact hov
    simp only [boostLoopGo]
    by_cases h : i < bs.length
    · rw [dif_pos h]
      split_ifs with h1 h2 h3
      · have hne : bs.get ⟨i, h⟩ ≠ b := fun he => hov (he ▸ h1.2)
        have hmem1 : b ∈ bs.set i { bs.get ⟨i, h⟩ with active := false } :=
          mem_set_of_ne hb h hne
        have hL : i < (bs.set i { bs.get ⟨i, h⟩ with active := false }).length := by
          rw [List.length_set]
          exact h
        have hne2 :
            (bs.set i { bs.get ⟨i, h⟩ with active := false }).get ⟨i, hL⟩ ≠ b := by
          rw [List.get_eq_getElem, List.getElem_set_self]
          intro he
          rw [← he] at hact
          simp at hact
        have hov2 : ¬ boostOverlap (applyBoost pl (bs.get ⟨i, h⟩)) b := fun hc =>
          hov ((boostOverlap_congr _ _ _ (applyBoost_geom _ _).1
            (applyBoost_geom _ _).2.1).mp hc)
        exact ih _ _ _ _ (mem_swapRemoveAt hmem1 hL hne2) hact hov2
      · exact absurd rfl h2
      · have hea : (bs.get ⟨i, h⟩).active = false := by simpa using h3
        have hne : bs.get ⟨i, h⟩ ≠ b := by
          intro he
          rw [he, hact] at hea
          exact absurd hea (by decide)
        have hmem1 : b ∈ bs.set i (bs.get ⟨i, h⟩) := mem_set_of_ne hb h hne
        have hL : i < (bs.set i (bs.get ⟨i, h⟩)).length := by
          rw [List.length_set]
          exact h
        have hne2 : (bs.set i (bs.get ⟨i, h⟩)).get ⟨i, hL⟩ ≠ b := by
          rw [List.get_eq_getElem, List.getElem_set_self]
          exact hne
        exact ih _ _ _ _ (mem_swapRemoveAt hmem1 hL hne2) hact hov
      · rw [set_get_self_eq bs i h]
        exact ih _ _ _ _ hb hact hov
    · rw [dif_neg h]
      exact hb

/-- Every boost the pickup loop returns was in the input pool and is
still active (given enough fuel and an all-active prefix). -/
theorem boostLoopGo_sound :
    ∀ (fuel : ℕ) (pl : Player) (bs : List Boost) (i : ℕ) (B : List Boost),
      bs.length - i ≤ fuel →
      (∀ x, x ∈ bs → x ∈ B) →
      (∀ (j : ℕ) (hj : j < bs.length), j < i → (bs.get ⟨j, hj⟩).active = true) →
      ∀ b, b ∈ (boostLoopGo fuel pl bs i).2 → b ∈ B ∧ b.active = true := by
  intro fuel
  induction fuel with
  | zero =>
    intro pl bs i B hfu hsub hpre b hmem
    simp only [boostLoopGo] at hmem
    refine ⟨hsub b hmem, ?_⟩
    obtain ⟨j, hj, hgj⟩ := List.mem_iff_getElem.mp hmem
    have hja := hpre j hj (by omega)
    rw [List.get_eq_getElem, hgj] at hja
    exact hja
  | succ n ih =>
    intro pl bs i B hfu hsub hpre b hmem
    simp only [boostLoopGo] at hmem
    by_cases h : i < bs.length
    · rw [dif_pos h] at hmem
      split_ifs at hmem with h1 h2 h3
      · refine ih _ _ _ _ ?_ ?_ ?_ b hmem
        · rw [swapRemoveAt_length_eq _ _ (by
            apply List.ne_nil_of_length_pos
            rw [List.length_set]
            omega)]
          rw [List.length_set]
          omega
        · intro x hx
          exact hsub x (mem_of_mem_swapRemoveAt_set h hx)
        · intro j hj hji
          rw [swapRemoveAt_set_getElem_lt h hji]
          exact hpre j (Nat.lt_trans hji h) hji
      · exact absurd rfl h2
      · refine ih _ _ _ _ ?_ ?_ ?_ b hmem
        · rw [swapRemoveAt_length_eq _ _ (by
            apply List.ne_nil_of_length_pos
            rw [List.length_set]
            omega)]
          rw [List.length_set]
          omega
        · intro x hx
          exact hsub x (mem_of_mem_swapRemoveAt_set h hx)
        · intro j hj hji
          rw [swapRemoveAt_set_getElem_lt h hji]
          exact hpre j (Nat.lt_trans hji h) hji
      · rw [set_get_self_eq bs i h] at hmem
        refine ih _ _ _ _ (by omega) hsub ?_ b hmem
        intro j hj hji
        rcases Nat.lt_or_ge j i with hlt | hge
        · exact hpre j hj hlt
        · have hji2 : j = i := by omega
          subst hji2
          simpa using h3
    · rw [dif_neg h] at hmem
      dsimp only at hmem
      refine ⟨hsub b hmem, ?_⟩
      obtain ⟨j, hj, hgj⟩ := List.mem_iff_getElem.mp hmem
      have hja := hpre j hj (by omega)
      rw [List.get_eq_getElem, hgj] at hja
      exact hja

/-- C10: the camera scroll only ever appends to the boost pool — existing
boosts keep their exact positions and are never recycled; the pickup loop
keeps every active boost the player does not touch and returns only
still-active members of its input pool; hence over a full non-terminal
tick an untouched active boost survives in place. -/
theorem claim_boost_persistence :
    (∀ (r : Rng) (g : Game) (c : RngCount),
      ∃ tl, (cameraScrollPhase r g c).1.boosts = g.boosts ++ tl) ∧
    (∀ (g : Game) (b : Boost), b ∈ g.boosts → b.active = true →
      ¬ boostOverlap g.player b → b ∈ (boostPhase g).boosts) ∧
    (∀ (g : Game) (b : Boost), b ∈ (boostPhase g).boosts →
      b ∈ g.boosts ∧ b.active = true) ∧
    (∀ (inp : Input) (r : Rng) (g : Game) (c : RngCount) (b : Boost),
      g.gameOver = false → b ∈ g.boosts → b.active = true →
      ¬ boostOverlap (timersSection (stuckPinPhase (platformPhase
        (stickyReleasePhase inp (weatherSection inp r g c).1)))).player b →
      b ∈ (update inp r g c).1.boosts) := by
  refine ⟨fun r g c => (cameraScroll_mono r c g).2.2.2, ?_, ?_, ?_⟩
  · intro g b hb hact hov
    exact boostLoopGo_keep g.boosts.length g.player g.boosts 0 b hb hact hov
  · intro g b hmem
    exact boostLoopGo_sound g.boosts.length g.player g.boosts 0 g.boosts
      (by omega) (fun x hx => hx) (fun j hj hji => absurd hji (Nat.not_lt_zero j))
      b hmem
  · intro inp r g c b hgo hb hact hov
    have hupd : update inp r g c = updateRun inp r g c := by
      unfold update
      rw [if_neg (by simp [hgo])]
    rw [hupd]
    have hgb : (timersSection (stuckPinPhase (platformPhase
        (stickyReleasePhase inp (weatherSection inp r g c).1)))).boosts = g.boosts := by
      simp [timersSection, weatherSection]
    have hsurv : b ∈ (boostPhase (timersSection (stuckPinPhase (platformPhase
        (stickyReleasePhase inp (weatherSection inp r g c).1))))).boosts :=
      boostLoopGo_keep _ _ _ 0 b (by rw [hgb]; exact hb) hact hov
    have h3 : (physicsSection inp (weatherSection inp r g c).1).boosts =
        (boostPhase (timersSection (stuckPinPhase (platformPhase
          (stickyReleasePhase inp (weatherSection inp r g c).1))))).boosts := by
      simp [physicsSection, postPinSection, moveSection, lateSection]
    obtain ⟨tl, htl⟩ := (cameraScroll_mono r (weatherSection inp r g c).2
      (physicsSection inp (weatherSection inp r g c).1)).2.2.2
    have hrun : (updateRun inp r g c).1.boosts =
        (cameraScrollPhase r (physicsSection inp (weatherSection inp r g c).1)
          (weatherSection inp r g c).2).1.boosts := by
      simp [updateRun, preScrollUpdate]
    rw [hrun, htl]
    refine List.mem_append_left _ ?_
    rw [h3]
    exact hsurv

/-- Witness for C10 on the concrete bounce state with a distant boost. -/
theorem claim_boost_persistence_witness :
    boostBox ∈ boostGame.boosts ∧
    boostBox.active = true ∧
    ¬ boostOverlap boostGame.player boostBox ∧
    boostBox ∈ (boostPhase boostGame).boosts ∧
    boostGame.gameOver = false ∧
    ¬ boostOverlap (timersSection (stuckPinPhase (platformPhase
      (stickyReleasePhase noInput (weatherSection noInput zeroRng boostGame
        ⟨0, 0⟩).1)))).player boostBox ∧
    boostBox ∈ (update noInput zeroRng boostGame ⟨0, 0⟩).1.boosts := by
  have hmem : boostBox ∈ boostGame.boosts := by simp [boostGame]
  have hov1 : ¬ boostOverlap boostGame.player boostBox := by
    norm_num [boostOverlap, boostGame, boostBox, PlayerWidth, PlayerHeight,
      PlatformWidth, PlatformHeight]
  have hov2 : ¬ boostOverlap (timersSection (stuckPinPhase (platformPhase
      (stickyReleasePhase noInput (weatherSection noInput zeroRng boostGame
        ⟨0, 0⟩).1)))).player boostBox := by
    norm_num [weatherSection, weatherTogglePhase, weatherTimerPhase,
      particleSpawnPhase, particleMovePhase, particleMoveLoop, stickyReleasePhase,
      platformPhase, platformLoopGo, platformStep, platformCollides, jumpForceOf,
      stuckPinPhase, timersSection, boostTimerPhase, flyTimerPhase, shootTimerPhase,
      boostOverlap, boostGame, boostBox, noInput, zeroRng, mkNormalPlat,
      WeatherClear, WeatherRain, WeatherSnow, RaindropCount, SnowflakeCount,
      InitialBirdSpeedMin, InitialBirdSpeedMax, BoostNone, BoostShield, BoostJump,
      BoostSpeed, PlatformSticky, PlatformNormal, PlatformDisappearing,
      PlatformIntact, PlatformBreaking, PlatformBroken, ScreenWidth, ScreenHeight,
      PlayerWidth, PlayerHeight, PlatformWidth, PlatformHeight, Gravity,
      JumpVelocity, RngCount.nextF, RngCount.nextI, Rng.intn]
  exact ⟨hmem, rfl, hov1,
    claim_boost_persistence.2.1 boostGame boostBox hmem rfl hov1,
    rfl, hov2,
    claim_boost_persistence.2.2.2 noInput zeroRng boostGame ⟨0, 0⟩ boostBox
      rfl hmem rfl hov2⟩

/-! ### C9: the stuck platform slot is never recycled -/

/-- The post-pin phases leave the platform pool untouched. -/
theorem platforms_postPin (inp : Input) (g : Game) :
    (postPinSection inp g).platforms = g.platforms := by
  simp [postPinSection, lateSection, moveSection, timersSection]

/-- After the post-pin phases the player sits exactly one final velocity
below the position it entered them with (the gravity integration is the
only position change). -/
theorem postPin_y (inp : Input) (g : Game) :
    (postPinSection inp g).player.y =
      g.player.y + (postPinSection inp g).player.velocityY := by
  have hA : posVel (inputMovePhase inp (boostPhase (timersSection g))) = posVel g := by
    simp [timersSection]
  have hfly : posVel (shootPhase inp (flyTogglePhase inp
      (flightPhase inp (inputMovePhase inp (boostPhase (timersSection g)))))) =
      posVel (flightPhase inp (inputMovePhase inp (boostPhase (timersSection g)))) := by
    simp
  have hlate : ∀ h : Game, (lateSection h).player = h.player := by
    intro h
    simp [lateSection]
  have hSy : (shootPhase inp (flyTogglePhase inp (flightPhase inp (inputMovePhase inp
      (boostPhase (timersSection g)))))).player.y = g.player.y := by
    have h1 := congrArg Prod.fst hfly
    simp only [posVel] at h1
    rw [h1, flightPhase_y]
    have h2 := congrArg Prod.fst hA
    simp only [posVel] at h2
    exact h2
  simp only [postPinSection, moveSection]
  rw [hlate]
  simp only [gravityPhase]
  rw [hSy]

/-- At the end of the physics pipeline a stuck player satisfies the pin
relation: its Y is the platform top minus half the player height plus the
final velocity, and that velocity is Gravity (or -4 + Gravity in flight). -/
theorem physics_pin (inp : Input) (g : Game) (i : ℕ)
    (hstuck : (physicsSection inp g).stuckToPlatform = some i) :
    (physicsSection inp g).player.y =
      ((physicsSection inp g).platforms.getD i defaultPlatform).y -
        ((PlayerHeight / 2 : ℕ) : ℚ) + (physicsSection inp g).player.velocityY ∧
    ((physicsSection inp g).player.velocityY = Gravity ∨
      (physicsSection inp g).player.velocityY = -4 + Gravity) := by
  have hs1 : (stuckPinPhase (platformPhase
      (stickyReleasePhase inp g))).stuckToPlatform = some i := by
    have h2 : (physicsSection inp g).stuckToPlatform =
        (stuckPinPhase (platformPhase (stickyReleasePhase inp g))).stuckToPlatform :=
      stuck_postPin inp _
    rw [← h2]
    exact hstuck
  have hs2 : (platformPhase (stickyReleasePhase inp g)).stuckToPlatform = some i := by
    rw [← stuck_stuckPin (platformPhase (stickyReleasePhase inp g))]
    exact hs1
  have hpy : (stuckPinPhase (platformPhase (stickyReleasePhase inp g))).player.y =
      ((platformPhase (stickyReleasePhase inp g)).platforms.getD i defaultPlatform).y -
        ((PlayerHeight / 2 : ℕ) : ℚ) := by
    simp only [stuckPinPhase, hs2]
  have hpv : (stuckPinPhase (platformPhase
      (stickyReleasePhase inp g))).player.velocityY = 0 := by
    simp only [stuckPinPhase, hs2]
  have hplats : (physicsSection inp g).platforms =
      (platformPhase (stickyReleasePhase inp g)).platforms := by
    show (postPinSection inp _).platforms = _
    rw [platforms_postPin, platforms_stuckPin]
  constructor
  · have hY := postPin_y inp (stuckPinPhase (platformPhase (stickyReleasePhase inp g)))
    show (postPinSection inp (stuckPinPhase (platformPhase
      (stickyReleasePhase inp g)))).player.y = _
    rw [hY, hpy, hplats]
    rfl
  · exact postPin_vel inp (stuckPinPhase (platformPhase (stickyReleasePhase inp g))) hpv

/-- A platform that stays on-screen after the shift is kept in place by
the scroll pass, only its Y moved by the scroll amount. -/
theorem platformScrollGo_getD (r : Rng) (diff : ℚ) :
    ∀ (ps : List Platform) (s : ScrollState) (c : RngCount) (i : ℕ),
      i < ps.length →
      (ps.getD i defaultPlatform).y + diff ≤ (ScreenHeight : ℚ) →
      (platformScrollGo r diff ps s c).1.getD i defaultPlatform =
        { ps.getD i defaultPlatform with
          y := (ps.getD i defaultPlatform).y + diff } := by
  intro ps
  induction ps with
  | nil =>
    intro s c i hi _
    exact absurd hi (by simp)
  | cons p rest ih =>
    intro s c i hi hkeep
    cases i with
    | zero =>
      rw [List.getD_cons_zero] at hkeep
      simp only [platformScrollGo]
      dsimp only
      simp only [List.getD_cons_zero]
      rw [if_neg (not_lt.mpr hkeep)]
    | succ j =>
      rw [List.getD_cons_succ] at hkeep
      have hj : j < rest.length := by
        rw [List.length_cons] at hi
        omega
      simp only [platformScrollGo]
      dsimp only
      simp only [List.getD_cons_succ]
      exact ih _ _ j hj hkeep

/-- The camera scroll keeps a slot whose pinned player drives the scroll
amount: the shifted Y lands at highPoint + PlayerHeight/2 - velocity,
far above the recycle threshold. -/
theorem cameraScroll_pinned (r : Rng) (c : RngCount) (gP : Game) (i : ℕ)
    (hlen : i < gP.platforms.length)
    (hkey : gP.player.y = (gP.platforms.getD i defaultPlatform).y -
      ((PlayerHeight / 2 : ℕ) : ℚ) + gP.player.velocityY)
    (hV : gP.player.velocityY = Gravity ∨ gP.player.velocityY = -4 + Gravity) :
    (gP.player.y < highPoint →
      (cameraScrollPhase r gP c).1.platforms.getD i defaultPlatform =
        { gP.platforms.getD i defaultPlatform with
          y := (gP.platforms.getD i defaultPlatform).y + (highPoint - gP.player.y) } ∧
      (gP.platforms.getD i defaultPlatform).y + (highPoint - gP.player.y) ≤
        (ScreenHeight : ℚ)) ∧
    (¬ gP.player.y < highPoint → (cameraScrollPhase r gP c).1.platforms = gP.platforms) := by
  constructor
  · intro hlow
    have h20 : ((PlayerHeight / 2 : ℕ) : ℚ) = 20 := by norm_num [PlayerHeight]
    have hbound : (gP.platforms.getD i defaultPlatform).y + (highPoint - gP.player.y) ≤
        (ScreenHeight : ℚ) := by
      rcases hV with hv | hv <;> rw [hkey, hv, h20] <;>
        simp only [highPoint, ScreenHeight, Gravity] <;> norm_num <;> linarith
    refine ⟨?_, hbound⟩
    simp only [cameraScrollPhase]
    rw [if_pos hlow]
    dsimp only
    exact platformScrollGo_getD r (highPoint - gP.player.y) gP.platforms _ _ i hlen hbound
  · intro hnot
    simp only [cameraScrollPhase]
    rw [if_neg hnot]

/-- C9: over a non-terminal tick whose physics phase ends with the player
stuck to platform slot i, the tick keeps the stuck reference at i and the
scroll pass never recycles that slot: if the scroll runs, slot i is merely
shifted down by the scroll amount (type, X and state intact) to a Y still
on screen; if no scroll runs, the platform pool is untouched. -/
theorem claim_stuck_platform_not_recycled
    (inp : Input) (r : Rng) (g : Game) (c : RngCount) (i : ℕ)
    (hgo : g.gameOver = false)
    (hstuck : (physicsSection inp (weatherSection inp r g c).1).stuckToPlatform = some i)
    (hlen : i < (physicsSection inp (weatherSection inp r g c).1).platforms.length) :
    (update inp r g c).1.stuckToPlatform = some i ∧
    ((physicsSection inp (weatherSection inp r g c).1).player.y < highPoint →
      (update inp r g c).1.platforms.getD i defaultPlatform =
        { (physicsSection inp (weatherSection inp r g c).1).platforms.getD i
            defaultPlatform with
          y := ((physicsSection inp (weatherSection inp r g c).1).platforms.getD i
                defaultPlatform).y +
            (highPoint - (physicsSection inp (weatherSection inp r g c).1).player.y) } ∧
      ((physicsSection inp (weatherSection inp r g c).1).platforms.getD i
          defaultPlatform).y +
        (highPoint - (physicsSection inp (weatherSection inp r g c).1).player.y) ≤
        (ScreenHeight : ℚ)) ∧
    (¬ (physicsSection inp (weatherSection inp r g c).1).player.y < highPoint →
      (update inp r g c).1.platforms =
        (physicsSection inp (weatherSection inp r g c).1).platforms) := by
  have hupd : update inp r g c = updateRun inp r g c := by
    unfold update
    rw [if_neg (by simp [hgo])]
  have hpin := physics_pin inp (weatherSection inp r g c).1 i hstuck
  have hcam := cameraScroll_pinned r (weatherSection inp r g c).2
    (physicsSection inp (weatherSection inp r g c).1) i hlen hpin.1 hpin.2
  have hust : (updateRun inp r g c).1.stuckToPlatform =
      (physicsSection inp (weatherSection inp r g c).1).stuckToPlatform := by
    simp [updateRun, preScrollUpdate]
  have hupl : (updateRun inp r g c).1.platforms =
      (cameraScrollPhase r (physicsSection inp (weatherSection inp r g c).1)
        (weatherSection inp r g c).2).1.platforms := by
    simp [updateRun, preScrollUpdate]
  refine ⟨?_, ?_, ?_⟩
  · rw [hupd, hust]
    exact hstuck
  · intro hlow
    rw [hupd, hupl]
    exact hcam.1 hlow
  · intro hnot
    rw [hupd, hupl]
    exact hcam.2 hnot

/-- Witness for C9 on the concrete high stuck state (the scroll runs). -/
theorem claim_stuck_platform_witness :
    stuckHighGame.gameOver = false ∧
    (physicsSection noInput (weatherSection noInput zeroRng stuckHighGame
      ⟨0, 0⟩).1).stuckToPlatform = some 0 ∧
    0 < (physicsSection noInput (weatherSection noInput zeroRng stuckHighGame
      ⟨0, 0⟩).1).platforms.length ∧
    (update noInput zeroRng stuckHighGame ⟨0, 0⟩).1.stuckToPlatform = some 0 ∧
    (physicsSection noInput (weatherSection noInput zeroRng stuckHighGame
      ⟨0, 0⟩).1).player.y < highPoint ∧
    ((physicsSection noInput (weatherSection noInput zeroRng stuckHighGame
        ⟨0, 0⟩).1).platforms.getD 0 defaultPlatform).y +
      (highPoint - (physicsSection noInput (weatherSection noInput zeroRng
        stuckHighGame ⟨0, 0⟩).1).player.y) ≤ (ScreenHeight : ℚ) := by
  have hstuck : (physicsSection noInput (weatherSection noInput zeroRng stuckHighGame
      ⟨0, 0⟩).1).stuckToPlatform = some 0 := by
    norm_num [physicsSection, postPinSection, lateSection, moveSection, timersSection,
      weatherSection, weatherTogglePhase, weatherTimerPhase, particleSpawnPhase,
      particleMovePhase, particleMoveLoop, stickyReleasePhase, platformPhase,
      platformLoopGo, platformStep, platformCollides, jumpForceOf, stuckPinPhase,
      boostTimerPhase, flyTimerPhase, shootTimerPhase, boostPhase, boostLoopGo,
      inputMovePhase, flightPhase, flyTogglePhase, shootPhase, gravityPhase,
      bulletPhase, bulletLoopGo, cloudMovePhase, birdMovePhase, birdLoopGo, birdStep,
      birdOverlapsPlayer, stuckHighGame, noInput, zeroRng, mkNormalPlat, WeatherClear,
      WeatherRain, WeatherSnow, RaindropCount, SnowflakeCount, InitialBirdSpeedMin,
      InitialBirdSpeedMax, BoostNone, BoostShield, BoostJump, BoostSpeed,
      PlatformSticky, PlatformNormal, PlatformDisappearing, PlatformIntact,
      PlatformBreaking, PlatformBroken, ScreenWidth, ScreenHeight, PlayerWidth,
      PlayerHeight, PlatformWidth, PlatformHeight, BirdWidth, BirdHeight, Gravity,
      JumpVelocity, RngCount.nextF, RngCount.nextI, Rng.intn, defaultPlatform,
      defaultBird]
  have hlen : 0 < (physicsSection noInput (weatherSection noInput zeroRng stuckHighGame
      ⟨0, 0⟩).1).platforms.length := by
    norm_num [physicsSection, postPinSection, lateSection, moveSection, timersSection,
      weatherSection, weatherTogglePhase, weatherTimerPhase, particleSpawnPhase,
      particleMovePhase, particleMoveLoop, stickyReleasePhase, platformPhase,
      platformLoopGo, platformStep, platformCollides, jumpForceOf, stuckPinPhase,
      boostTimerPhase, flyTimerPhase, shootTimerPhase, boostPhase, boostLoopGo,
      inputMovePhase, flightPhase, flyTogglePhase, shootPhase, gravityPhase,
      bulletPhase, bulletLoopGo, cloudMovePhase, birdMovePhase, birdLoopGo, birdStep,
      birdOverlapsPlayer, stuckHighGame, noInput, zeroRng, mkNormalPlat, WeatherClear,
      WeatherRain, WeatherSnow, RaindropCount, SnowflakeCount, InitialBirdSpeedMin,
      InitialBirdSpeedMax, BoostNone, BoostShield, BoostJump, BoostSpeed,
      PlatformSticky, PlatformNormal, PlatformDisappearing, PlatformIntact,
      PlatformBreaking, PlatformBroken, ScreenWidth, ScreenHeight, PlayerWidth,
      PlayerHeight, PlatformWidth, PlatformHeight, BirdWidth, BirdHeight, Gravity,
      JumpVelocity, RngCount.nextF, RngCount.nextI, Rng.intn, defaultPlatform,
      defaultBird]
  have hlow : (physicsSection noInput (weatherSection noInput zeroRng stuckHighGame
      ⟨0, 0⟩).1).player.y < highPoint := by
    norm_num [physicsSection, postPinSection, lateSection, moveSection, timersSection,
      weatherSection, weatherTogglePhase, weatherTimerPhase, particleSpawnPhase,
      particleMovePhase, particleMoveLoop, stickyReleasePhase, platformPhase,
      platformLoopGo, platformStep, platformCollides, jumpForceOf, stuckPinPhase,
      boostTimerPhase, flyTimerPhase, shootTimerPhase, boostPhase, boostLoopGo,
      inputMovePhase, flightPhase, flyTogglePhase, shootPhase, gravityPhase,
      bulletPhase, bulletLoopGo, cloudMovePhase, birdMovePhase, birdLoopGo, birdStep,
      birdOverlapsPlayer, highPoint, stuckHighGame, noInput, zeroRng, mkNormalPlat,
      WeatherClear, WeatherRain, WeatherSnow, RaindropCount, SnowflakeCount,
      InitialBirdSpeedMin, InitialBirdSpeedMax, BoostNone, BoostShield, BoostJump,
      BoostSpeed, PlatformSticky, PlatformNormal, PlatformDisappearing, PlatformIntact,
      PlatformBreaking, PlatformBroken, ScreenWidth, ScreenHeight, PlayerWidth,
      PlayerHeight, PlatformWidth, PlatformHeight, BirdWidth, BirdHeight, Gravity,
      JumpVelocity, RngCount.nextF, RngCount.nextI, Rng.intn, defaultPlatform,
      defaultBird]
  have hc := claim_stuck_platform_not_recycled noInput zeroRng stuckHighGame
    ⟨0, 0⟩ 0 rfl hstuck hlen
  exact ⟨rfl, hstuck, hlen, hc.1, hlow, (hc.2.1 hlow).2⟩

end DoodleJump
